import Mathlib

/-!
Verification of the record-matching and field-merge engine of the
excel-report-manager repository.

The development shallowly embeds the core logic of
`src/lib/masterFileService.ts` (`mergeRowData`, `mergeIntoMasterFile`,
`readMasterFile`), the ingestion row loop of the Upload page
(`getValue`, `parseNumber`, `parseDate`, `processFile`'s row mapping and
intra-file deduplication), and the dashboard bulk-load conversion of
`src/lib/masterFileLoader.ts` (`mergedRowToOrder`).

Spreadsheet cells reach the TypeScript code as JavaScript values that are
either strings or numbers; we model such a value as `JVal` and an
optional object property as `Option JVal` (`none` = the key is absent /
`undefined`).  JavaScript numbers are modelled as rationals (the merge
engine only parses, copies and compares them; it never does arithmetic
on them).  Unknown spreadsheet columns (the overflow mechanism) are kept
in a separate `raw` association list whose keys are, by construction,
never the names of the typed interface fields.
-/

/-- A JavaScript value stored in a row object: a string or a number. -/
inductive JVal where
  | str : String → JVal
  | num : ℚ → JVal
deriving DecidableEq, Repr

/-- JavaScript truthiness of a `JVal`: `""` and `0` are falsy. -/
def JVal.truthy : JVal → Bool
  | .str s => s ≠ ""
  | .num q => q ≠ 0

/-- Truthiness of an optional property (`undefined` is falsy). -/
def truthyO : Option JVal → Bool
  | none => false
  | some v => v.truthy

/-- The four record kinds (`fileType` / `uploadType` in the source). -/
inductive FileType where
  | sales | payment | gst | refund
deriving DecidableEq, Repr

/-- Model of `String.prototype.toLowerCase()` (ASCII-adequate). -/
def jsToLower (s : String) : String := ⟨s.data.map Char.toLower⟩

/-- Characters matched by the JavaScript `\s` class (model: `Char.isWhitespace`). -/
def jsWs (c : Char) : Bool := c.isWhitespace

/-- Model of `String.prototype.trim()`: strip leading and trailing whitespace. -/
def jsTrim (s : String) : String :=
  ⟨((s.data.dropWhile jsWs).reverse.dropWhile jsWs).reverse⟩

/-- Structure `MergedRow` of `masterFileService.ts`: the canonical record.  `orderId`
and `subOrderId` are required strings; every other known field is an
optional JavaScript value; `raw` holds the unknown overflow columns. -/
@[ext]
structure MergedRow where
  orderId : String := ""
  subOrderId : String := ""
  orderDate : Option JVal := none
  productName : Option JVal := none
  sku : Option JVal := none
  skuName : Option JVal := none
  quantity : Option JVal := none
  status : Option JVal := none
  customerName : Option JVal := none
  customerState : Option JVal := none
  customerCity : Option JVal := none
  customerPincode : Option JVal := none
  wholesalePrice : Option JVal := none
  sellingPrice : Option JVal := none
  shippingCharge : Option JVal := none
  paymentMode : Option JVal := none
  hsn : Option JVal := none
  commission : Option JVal := none
  tcs : Option JVal := none
  tds : Option JVal := none
  shipperCharge : Option JVal := none
  netAmount : Option JVal := none
  gstRate : Option JVal := none
  invoiceNumber : Option JVal := none
  invoiceDate : Option JVal := none
  cgst : Option JVal := none
  sgst : Option JVal := none
  igst : Option JVal := none
  taxableValue : Option JVal := none
  invoiceAmount : Option JVal := none
  refundAmount : Option JVal := none
  deductionAmount : Option JVal := none
  refundReason : Option JVal := none
  refundDate : Option JVal := none
  gstRefund : Option JVal := none
  raw : List (String × String) := []
deriving DecidableEq, Repr

/-- The overflow step of `mergeRowData` for one known field: the JS loop
`if (!(key in merged)) merged[key] = newRow[key]` copies `newRow`'s value
only when the key is absent from `merged`. -/
def fillAbsent (x y : Option JVal) : Option JVal :=
  match x with
  | some v => some v
  | none => y

/-- The overflow step for the unknown raw columns: keys of `newRow` are
added only when not already present in `merged` (first writer wins). -/
def rawUnion (m l : List (String × String)) : List (String × String) :=
  l.foldl (fun acc kv => if acc.any (fun kv' => kv'.1 = kv.1) then acc else acc ++ [kv]) m

/-- Function `mergeRowData` of `masterFileService.ts` lines 323-412: merge an
incoming normalized row into an existing canonical record, by file type.
Transcribed statement-for-statement: spread of `existing`, the key
preservation, the four per-kind blocks, the unconditional
`status`/`gstRefund` updates, and the final overflow loop over the keys
of `newRow` (which, for a known interface field, fills it only when it is
absent from `merged`, and for unknown columns extends `raw` first-writer-wins). -/
def mergeRowData (existing newRow : MergedRow) (fileType : FileType) : MergedRow :=
  let merged := { existing with
    orderId := existing.orderId
    subOrderId := if existing.subOrderId = "" then existing.orderId else existing.subOrderId }
  let merged := if fileType = FileType.sales then { merged with
      productName := if truthyO newRow.productName then newRow.productName else merged.productName
      sku := if truthyO newRow.sku then newRow.sku else merged.sku
      skuName := if truthyO newRow.skuName then newRow.skuName else merged.skuName
      quantity := if newRow.quantity.isSome then newRow.quantity else merged.quantity
      status := if truthyO newRow.status then newRow.status else merged.status
      customerName := if truthyO newRow.customerName then newRow.customerName else merged.customerName
      customerState := if truthyO newRow.customerState then newRow.customerState else merged.customerState
      customerCity := if truthyO newRow.customerCity then newRow.customerCity else merged.customerCity
      customerPincode := if truthyO newRow.customerPincode then newRow.customerPincode else merged.customerPincode
      wholesalePrice := if newRow.wholesalePrice.isSome then newRow.wholesalePrice else merged.wholesalePrice
      sellingPrice := if newRow.sellingPrice.isSome then newRow.sellingPrice else merged.sellingPrice
      shippingCharge := if newRow.shippingCharge.isSome then newRow.shippingCharge else merged.shippingCharge
      orderDate := if truthyO newRow.orderDate then newRow.orderDate else merged.orderDate }
    else merged
  let merged := if fileType = FileType.payment then { merged with
      paymentMode := if truthyO newRow.paymentMode then newRow.paymentMode else merged.paymentMode
      hsn := if truthyO newRow.hsn then newRow.hsn else merged.hsn
      commission := if newRow.commission.isSome then newRow.commission else merged.commission
      tcs := if newRow.tcs.isSome then newRow.tcs else merged.tcs
      tds := if newRow.tds.isSome then newRow.tds else merged.tds
      shipperCharge := if newRow.shipperCharge.isSome then newRow.shipperCharge else merged.shipperCharge
      netAmount := if newRow.netAmount.isSome then newRow.netAmount else merged.netAmount
      wholesalePrice := if newRow.wholesalePrice.isSome then newRow.wholesalePrice else merged.wholesalePrice
      shippingCharge := if newRow.shippingCharge.isSome then newRow.shippingCharge else merged.shippingCharge
      customerCity := if truthyO newRow.customerCity then newRow.customerCity else merged.customerCity
      customerPincode := if truthyO newRow.customerPincode then newRow.customerPincode else merged.customerPincode
      customerState := if truthyO newRow.customerState then newRow.customerState else merged.customerState
      productName := if truthyO newRow.productName then newRow.productName else merged.productName
      status := if truthyO newRow.status then newRow.status else merged.status }
    else merged
  let merged := if fileType = FileType.gst then { merged with
      invoiceNumber := if truthyO newRow.invoiceNumber then newRow.invoiceNumber else merged.invoiceNumber
      invoiceDate := if truthyO newRow.invoiceDate then newRow.invoiceDate else merged.invoiceDate
      hsn := if truthyO newRow.hsn then newRow.hsn else merged.hsn
      gstRate := if newRow.gstRate.isSome then newRow.gstRate else merged.gstRate
      taxableValue := if newRow.taxableValue.isSome then newRow.taxableValue else merged.taxableValue
      cgst := if newRow.cgst.isSome then newRow.cgst else merged.cgst
      sgst := if newRow.sgst.isSome then newRow.sgst else merged.sgst
      igst := if newRow.igst.isSome then newRow.igst else merged.igst
      invoiceAmount := if newRow.invoiceAmount.isSome then newRow.invoiceAmount else merged.invoiceAmount
      sku := if truthyO newRow.sku then newRow.sku else merged.sku
      productName := if truthyO newRow.productName then newRow.productName else merged.productName
      quantity := if newRow.quantity.isSome then newRow.quantity else merged.quantity
      customerState := if truthyO newRow.customerState then newRow.customerState else merged.customerState
      status := if truthyO newRow.status then newRow.status else merged.status }
    else merged
  let merged := if fileType = FileType.refund then { merged with
      refundAmount := if newRow.refundAmount.isSome then newRow.refundAmount else merged.refundAmount
      deductionAmount := if newRow.deductionAmount.isSome then newRow.deductionAmount else merged.deductionAmount
      refundReason := if truthyO newRow.refundReason then newRow.refundReason else merged.refundReason
      refundDate := if truthyO newRow.refundDate then newRow.refundDate else merged.refundDate
      gstRefund := if newRow.gstRefund.isSome then newRow.gstRefund else merged.gstRefund }
    else merged
  let merged := { merged with
    status := if newRow.status.isSome then newRow.status else merged.status
    gstRefund := if newRow.gstRefund.isSome then newRow.gstRefund else merged.gstRefund }
  { merged with
    orderDate := fillAbsent merged.orderDate newRow.orderDate
    productName := fillAbsent merged.productName newRow.productName
    sku := fillAbsent merged.sku newRow.sku
    skuName := fillAbsent merged.skuName newRow.skuName
    quantity := fillAbsent merged.quantity newRow.quantity
    status := fillAbsent merged.status newRow.status
    customerName := fillAbsent merged.customerName newRow.customerName
    customerState := fillAbsent merged.customerState newRow.customerState
    customerCity := fillAbsent merged.customerCity newRow.customerCity
    customerPincode := fillAbsent merged.customerPincode newRow.customerPincode
    wholesalePrice := fillAbsent merged.wholesalePrice newRow.wholesalePrice
    sellingPrice := fillAbsent merged.sellingPrice newRow.sellingPrice
    shippingCharge := fillAbsent merged.shippingCharge newRow.shippingCharge
    paymentMode := fillAbsent merged.paymentMode newRow.paymentMode
    hsn := fillAbsent merged.hsn newRow.hsn
    commission := fillAbsent merged.commission newRow.commission
    tcs := fillAbsent merged.tcs newRow.tcs
    tds := fillAbsent merged.tds newRow.tds
    shipperCharge := fillAbsent merged.shipperCharge newRow.shipperCharge
    netAmount := fillAbsent merged.netAmount newRow.netAmount
    gstRate := fillAbsent merged.gstRate newRow.gstRate
    invoiceNumber := fillAbsent merged.invoiceNumber newRow.invoiceNumber
    invoiceDate := fillAbsent merged.invoiceDate newRow.invoiceDate
    cgst := fillAbsent merged.cgst newRow.cgst
    sgst := fillAbsent merged.sgst newRow.sgst
    igst := fillAbsent merged.igst newRow.igst
    taxableValue := fillAbsent merged.taxableValue newRow.taxableValue
    invoiceAmount := fillAbsent merged.invoiceAmount newRow.invoiceAmount
    refundAmount := fillAbsent merged.refundAmount newRow.refundAmount
    deductionAmount := fillAbsent merged.deductionAmount newRow.deductionAmount
    refundReason := fillAbsent merged.refundReason newRow.refundReason
    refundDate := fillAbsent merged.refundDate newRow.refundDate
    gstRefund := fillAbsent merged.gstRefund newRow.gstRefund
    raw := rawUnion merged.raw newRow.raw }

/-! ### Header Resolver and Row Normalizer (Upload page) -/

/-- Collapse every maximal run of whitespace to a single space
(JS `replace(/\s+/g, ' ')`).  The second argument records whether the
previous character was part of a whitespace run. -/
def collapseWs : List Char → Bool → List Char
  | [], _ => []
  | c :: t, prevWs =>
    if jsWs c then
      if prevWs then collapseWs t true else ' ' :: collapseWs t true
    else c :: collapseWs t false

/-- The `normalize` helper inside `getValue`: lower-case, collapse whitespace, trim. -/
def normalizeHdr (s : String) : String :=
  jsTrim ⟨collapseWs (jsToLower s).data false⟩

/-- The loose key of attempt 3 of `getValue`: the normalized header with
every underscore, hyphen and whitespace character removed. -/
def looseKey (s : String) : String :=
  ⟨(normalizeHdr s).data.filter (fun c => !(c = '_' || c = '-' || jsWs c))⟩

/-- First value stored under `k` in a row object (model of `row[k]`). -/
def rowLookup (row : List (String × String)) (k : String) : Option String :=
  match row.find? (fun kv => kv.1 = k) with
  | some kv => some kv.2
  | none => none

/-- Function `getValue` of the Upload page: resolve a row's value for a configured
header text via exact, normalized, then loose matching; empty values and
missing headers resolve to `""`. -/
def getValue (row : List (String × String)) (headerName : String) : String :=
  if headerName = "" then ""
  else
    let normalizedHeader := normalizeHdr headerName
    let attempt3 :=
      match row.find? (fun kv => looseKey kv.1 = looseKey headerName) with
      | some kv => if kv.1 ≠ "" ∧ kv.2 ≠ "" then kv.2 else ""
      | none => ""
    let attempt2 :=
      match row.find? (fun kv => normalizeHdr kv.1 = normalizedHeader) with
      | some kv => if kv.1 ≠ "" ∧ kv.2 ≠ "" then kv.2 else attempt3
      | none => attempt3
    match rowLookup row headerName with
    | some v => if v ≠ "" then v else attempt2
    | none => attempt2

/-- Value of a digit string, most significant first. -/
def digitsToNat (l : List Char) : ℕ :=
  l.foldl (fun n c => 10 * n + (c.toNat - '0'.toNat)) 0

/-- Model of `parseFloat` restricted to strings over the alphabet `[0-9.-]`
(`parseNumber` cleans its input to that alphabet first): an optional
leading minus sign, integer digits, an optional fraction; parsing stops
at the first invalid character; `none` models `NaN`. -/
def parseFloatQ (l : List Char) : Option ℚ :=
  let signAndRest : Bool × List Char :=
    match l with
    | '-' :: t => (true, t)
    | t => (false, t)
  let neg := signAndRest.1
  let rest := signAndRest.2
  let intPart := rest.takeWhile Char.isDigit
  let rest2 := rest.dropWhile Char.isDigit
  let fracPart :=
    match rest2 with
    | '.' :: t => t.takeWhile Char.isDigit
    | _ => []
  if intPart.isEmpty ∧ fracPart.isEmpty then none
  else
    let mag : ℚ := (digitsToNat intPart : ℚ) + (digitsToNat fracPart : ℚ) / ((10 : ℚ) ^ fracPart.length)
    some (if neg then -mag else mag)

/-- Function `parseNumber` of the Upload page: empty input is 0, otherwise strip
every character except digits, `.` and `-`, then `parseFloat`; `NaN`
becomes 0. -/
def parseNumber (value : String) : ℚ :=
  if value = "" then 0
  else
    match parseFloatQ (value.data.filter (fun c => c.isDigit || c = '.' || c = '-')) with
    | none => 0
    | some q => q

/-- Function `parseDate` of the Upload page.  `jsDate` models `new Date(value)`
followed by `toISOString().split('T')[0]`: `some iso` on a successfully
parsed date, `none` when the date is invalid (the original string is then
passed through unchanged). -/
def parseDate (jsDate : String → Option String) (value : String) : String :=
  if value = "" then ""
  else
    match jsDate value with
    | some iso => iso
    | none => value

/-- Per-platform header configuration for one upload type. -/
structure PlatformHeaders where
  orderId : String := ""
  subOrderId : String := ""
  orderDate : String := ""
  productName : String := ""
  sku : String := ""
  skuName : String := ""
  quantity : String := ""
  status : String := ""
  customerName : String := ""
  customerState : String := ""
  customerCity : String := ""
  customerPincode : String := ""
  wholesalePrice : String := ""
  sellingPrice : String := ""
  shippingCharge : String := ""
  paymentMode : String := ""
  hsn : String := ""
  commission : String := ""
  tcs : String := ""
  tds : String := ""
  shipperCharge : String := ""
  netAmount : String := ""
  gstRate : String := ""
  invoiceNumber : String := ""
  invoiceDate : String := ""
  taxableValue : String := ""
  cgst : String := ""
  sgst : String := ""
  igst : String := ""
  invoiceAmount : String := ""
  refundAmount : String := ""
  deductionAmount : String := ""
  refundReason : String := ""
  refundDate : String := ""
deriving DecidableEq, Repr

/-- The names of the typed `MergedRow` interface fields.  A raw column
whose name is one of these occupies the typed slot of the merged-row
object (via the `...row` spread); every other column is an overflow
column kept in `raw`. -/
def knownFieldNames : List String :=
  ["orderId", "subOrderId", "orderDate", "productName", "sku", "skuName", "quantity",
   "status", "customerName", "customerState", "customerCity", "customerPincode",
   "wholesalePrice", "sellingPrice", "shippingCharge", "paymentMode", "hsn",
   "commission", "tcs", "tds", "shipperCharge", "netAmount", "gstRate",
   "invoiceNumber", "invoiceDate", "cgst", "sgst", "igst", "taxableValue",
   "invoiceAmount", "refundAmount", "deductionAmount", "refundReason",
   "refundDate", "gstRefund"]

/-- Seed of a typed field from the `...row` spread: the raw column of the
same name, if the sheet has one. -/
def seedField (row : List (String × String)) (name : String) : Option JVal :=
  (rowLookup row name).map JVal.str

/-- The body of `processFile`'s row mapping: build the `MergedRow` object
`{ orderId, subOrderId, orderDate, ...row }` and then apply the per-kind
field assignments of the selected upload type. -/
def buildMergedRow (row : List (String × String)) (h : PlatformHeaders)
    (uploadType : FileType) (jsDate : String → Option String) : MergedRow :=
  let orderId0 := getValue row h.orderId
  let subOrderId0 := let s := getValue row h.subOrderId; if s = "" then orderId0 else s
  let orderDate0 := parseDate jsDate (getValue row h.orderDate)
  let base : MergedRow := {
    orderId := (rowLookup row "orderId").getD orderId0
    subOrderId := (rowLookup row "subOrderId").getD subOrderId0
    orderDate := some (JVal.str ((rowLookup row "orderDate").getD orderDate0))
    productName := seedField row "productName"
    sku := seedField row "sku"
    skuName := seedField row "skuName"
    quantity := seedField row "quantity"
    status := seedField row "status"
    customerName := seedField row "customerName"
    customerState := seedField row "customerState"
    customerCity := seedField row "customerCity"
    customerPincode := seedField row "customerPincode"
    wholesalePrice := seedField row "wholesalePrice"
    sellingPrice := seedField row "sellingPrice"
    shippingCharge := seedField row "shippingCharge"
    paymentMode := seedField row "paymentMode"
    hsn := seedField row "hsn"
    commission := seedField row "commission"
    tcs := seedField row "tcs"
    tds := seedField row "tds"
    shipperCharge := seedField row "shipperCharge"
    netAmount := seedField row "netAmount"
    gstRate := seedField row "gstRate"
    invoiceNumber := seedField row "invoiceNumber"
    invoiceDate := seedField row "invoiceDate"
    cgst := seedField row "cgst"
    sgst := seedField row "sgst"
    igst := seedField row "igst"
    taxableValue := seedField row "taxableValue"
    invoiceAmount := seedField row "invoiceAmount"
    refundAmount := seedField row "refundAmount"
    deductionAmount := seedField row "deductionAmount"
    refundReason := seedField row "refundReason"
    refundDate := seedField row "refundDate"
    gstRefund := seedField row "gstRefund"
    raw := row.filter (fun kv => !knownFieldNames.contains kv.1) }
  match uploadType with
  | .sales => { base with
      productName := some (.str (getValue row h.productName))
      sku := some (.str (getValue row h.sku))
      skuName := some (.str (getValue row h.skuName))
      quantity := some (.num (let q := parseNumber (getValue row h.quantity); if q = 0 then 1 else q))
      status := some (.str (jsToLower (getValue row h.status)))
      customerName := some (.str (getValue row h.customerName))
      customerState := some (.str (getValue row h.customerState))
      customerCity := some (.str (getValue row h.customerCity))
      customerPincode := some (.str (getValue row h.customerPincode))
      wholesalePrice := some (.num (parseNumber (getValue row h.wholesalePrice)))
      sellingPrice := some (.num (parseNumber (getValue row h.sellingPrice)))
      shippingCharge := some (.num (parseNumber (getValue row h.shippingCharge))) }
  | .payment => { base with
      productName := if h.productName ≠ "" then some (.str (getValue row h.productName)) else base.productName
      status := if h.status ≠ "" then some (.str (jsToLower (getValue row h.status))) else base.status
      paymentMode := some (.str (getValue row h.paymentMode))
      hsn := some (.str (getValue row h.hsn))
      wholesalePrice := some (.num (parseNumber (getValue row h.wholesalePrice)))
      shippingCharge := some (.num (parseNumber (getValue row h.shippingCharge)))
      tcs := some (.num (parseNumber (getValue row h.tcs)))
      tds := some (.num (parseNumber (getValue row h.tds)))
      commission := some (.num (parseNumber (getValue row h.commission)))
      shipperCharge := some (.num (parseNumber (getValue row h.shipperCharge)))
      netAmount := some (.num (parseNumber (getValue row h.netAmount)))
      customerCity := if h.customerCity ≠ "" then some (.str (getValue row h.customerCity)) else base.customerCity
      customerPincode := if h.customerPincode ≠ "" then some (.str (getValue row h.customerPincode)) else base.customerPincode
      customerState := if h.customerState ≠ "" then some (.str (getValue row h.customerState)) else base.customerState }
  | .gst => { base with
      status := if h.status ≠ "" then some (.str (jsToLower (getValue row h.status))) else base.status
      invoiceNumber := some (.str (getValue row h.invoiceNumber))
      invoiceDate := some (.str (parseDate jsDate (getValue row h.invoiceDate)))
      hsn := some (.str (getValue row h.hsn))
      gstRate := some (.num (parseNumber (getValue row h.gstRate)))
      sku := if h.sku ≠ "" then some (.str (getValue row h.sku)) else base.sku
      productName := if h.productName ≠ "" then some (.str (getValue row h.productName)) else base.productName
      quantity := if h.quantity ≠ "" then some (.num (let q := parseNumber (getValue row h.quantity); if q = 0 then 1 else q)) else base.quantity
      customerState := if h.customerState ≠ "" then some (.str (getValue row h.customerState)) else base.customerState
      taxableValue := some (.num (parseNumber (getValue row h.taxableValue)))
      cgst := some (.num (parseNumber (getValue row h.cgst)))
      igst := some (.num (parseNumber (getValue row h.igst)))
      sgst := some (.num (parseNumber (getValue row h.sgst)))
      invoiceAmount := some (.num (parseNumber (getValue row h.invoiceAmount))) }
  | .refund => { base with
      refundAmount := some (.num (parseNumber (getValue row h.refundAmount)))
      deductionAmount := some (.num (parseNumber (getValue row h.deductionAmount)))
      refundReason := some (.str (getValue row h.refundReason))
      refundDate := some (.str (parseDate jsDate (getValue row h.refundDate))) }

/-- Outcome counters of the `processFile` row loop. -/
structure ProcessResult where
  mergedRows : List MergedRow
  successCount : ℕ
  errorCount : ℕ
  duplicateCount : ℕ
deriving DecidableEq, Repr

/-- The `orderId` local of the `processFile` row loop. -/
def extractedOrderId (row : List (String × String)) (h : PlatformHeaders) : String :=
  getValue row h.orderId

/-- The `subOrderId` local of the `processFile` row loop
(`getValue(row, headers.subOrderId) || orderId`). -/
def extractedSubOrderId (row : List (String × String)) (h : PlatformHeaders) : String :=
  if getValue row h.subOrderId = "" then getValue row h.orderId
  else getValue row h.subOrderId

/-- The `uniqueKey` local of the `processFile` row loop:
`` `${orderId}_${subOrderId}`.toLowerCase().trim() ``. -/
def extractedKey (row : List (String × String)) (h : PlatformHeaders) : String :=
  jsTrim (jsToLower (extractedOrderId row h ++ "_" ++ extractedSubOrderId row h))

/-- One iteration of the `processFile` row loop: reject rows without an
order id, count and skip rows whose case-insensitive key was already
processed in this file, and otherwise emit the normalized `MergedRow`
and remember the key. -/
def processRowStep (h : PlatformHeaders) (uploadType : FileType)
    (jsDate : String → Option String) (st : ProcessResult × List String)
    (row : List (String × String)) : ProcessResult × List String :=
  if extractedOrderId row h = "" ∨ jsTrim (extractedOrderId row h) = "" then
    ({ st.1 with errorCount := st.1.errorCount + 1 }, st.2)
  else
    if st.2.contains (extractedKey row h) then
      ({ st.1 with duplicateCount := st.1.duplicateCount + 1 }, st.2)
    else
      ({ st.1 with
          mergedRows := st.1.mergedRows ++ [buildMergedRow row h uploadType jsDate]
          successCount := st.1.successCount + 1 },
        st.2 ++ [extractedKey row h])

/-- The row loop of `processFile` (Upload page). -/
def processFileRows (rows : List (List (String × String))) (h : PlatformHeaders)
    (uploadType : FileType) (jsDate : String → Option String) : ProcessResult :=
  (rows.foldl (processRowStep h uploadType jsDate) (⟨[], 0, 0, 0⟩, [])).1

/-! ### Ledger Store (`mergeIntoMasterFile`, `readMasterFile`) -/

/-- The in-memory `Map<string, MergedRow>` of `mergeIntoMasterFile`,
modelled as an insertion-ordered association list. -/
abbrev MasterMap := List (String × MergedRow)

/-- Model of `Map.get`. -/
def mlookup (k : String) : MasterMap → Option MergedRow
  | [] => none
  | kv :: t => if kv.1 = k then some kv.2 else mlookup k t

/-- Model of `Map.set`: replace in place when the key exists, append otherwise. -/
def mapSet (k : String) (v : MergedRow) (m : MasterMap) : MasterMap :=
  if (mlookup k m).isSome then m.map (fun kv => if kv.1 = k then (k, v) else kv)
  else m ++ [(k, v)]

/-- The identity key under which `mergeIntoMasterFile` stores and looks
up a record: `` `${orderId}_${subOrderId || orderId}`.toLowerCase().trim() ``. -/
def rowKey (r : MergedRow) : String :=
  jsTrim (jsToLower (r.orderId ++ "_" ++ (if r.subOrderId = "" then r.orderId else r.subOrderId)))

/-- Indexing of the existing master-file rows by identity key
(`existingMap` construction of `mergeIntoMasterFile`). -/
def buildMasterMap (rows : List MergedRow) : MasterMap :=
  rows.foldl (fun m row => mapSet (rowKey row) row m) []

/-- One iteration of `mergeIntoMasterFile`'s `newRows.forEach`: rows
without an order id are skipped; a row whose key exists in the ledger is
merged there; otherwise it is merged into (or inserted into) the
in-batch accumulator `newRowsMap`. -/
def upsertStep (fileType : FileType) (st : MasterMap × MasterMap) (newRow : MergedRow) :
    MasterMap × MasterMap :=
  if newRow.orderId = "" then st
  else
    let k := rowKey newRow
    match mlookup k st.1 with
    | some existing => (mapSet k (mergeRowData existing newRow fileType) st.1, st.2)
    | none =>
      match mlookup k st.2 with
      | some existingNew => (st.1, mapSet k (mergeRowData existingNew newRow fileType) st.2)
      | none => (st.1, mapSet k newRow st.2)

/-- One iteration of `mergeIntoMasterFile`'s `newRowsMap.forEach`: an
accumulator entry is added to the ledger index only when its key is
still absent there. -/
def unionStep (em : MasterMap) (kv : String × MergedRow) : MasterMap :=
  if (mlookup kv.1 em).isSome then em else mapSet kv.1 kv.2 em

/-- The pure state transformation of `mergeIntoMasterFile` before
serialization: index the existing rows, fold the new rows through
`upsertStep`, then add the accumulator entries whose keys are still
absent from the ledger index. -/
def mergeIntoMasterFileMap (existingRows newRows : List MergedRow) (fileType : FileType) :
    MasterMap :=
  let st := newRows.foldl (upsertStep fileType) (buildMasterMap existingRows, [])
  st.2.foldl unionStep st.1

/-- The key used by `mergeIntoMasterFile`'s final sort comparator:
`` `${orderId}_${subOrderId || orderId}` `` in original casing, without
lower-casing or trimming. -/
def sortKeyOf (r : MergedRow) : String :=
  r.orderId ++ "_" ++ (if r.subOrderId = "" then r.orderId else r.subOrderId)

/-- The list of rows `mergeIntoMasterFile` serializes: the map's values
sorted with `aKey.localeCompare(bKey)`.  `localeCompare` is
host-locale-defined, so it is a parameter `lc`; the JS engine's stable
sort is modelled by a stable insertion sort. -/
def mergeIntoMasterFile (lc : String → String → Ordering)
    (existingRows newRows : List MergedRow) (fileType : FileType) : List MergedRow :=
  List.insertionSort (fun a b => lc (sortKeyOf a) (sortKeyOf b) ≠ Ordering.gt)
    ((mergeIntoMasterFileMap existingRows newRows fileType).map Prod.snd)

/-- The error object thrown by the storage client / fetch inside
`readMasterFile` (the fields the catch block inspects). -/
structure StorageError where
  code : Option String := none
  message : String := ""
  name : Option String := none
  serverStatusCode : Option ℕ := none
deriving DecidableEq, Repr

/-- Model of `String.prototype.includes` (substring test). -/
def containsSub (s pat : String) : Bool :=
  s.data.tails.any (fun t => pat.data.isPrefixOf t)

/-- The catch block's "file doesn't exist yet" classification. -/
def isNotFoundError (e : StorageError) : Bool :=
  e.code = some "storage/object-not-found" || e.code = some "storage/unauthorized" ||
  e.code = some "storage/unknown" || containsSub e.message "not found" ||
  containsSub e.message "No such object" || e.serverStatusCode = some 404 ||
  containsSub e.message "404"

/-- The catch block's CORS-error classification. -/
def isCorsError (e : StorageError) : Bool :=
  containsSub e.message "CORS" || containsSub e.message "Access-Control-Allow-Origin" ||
  containsSub e.message "blocked by CORS policy" || containsSub e.message "Failed to fetch" ||
  (e.name = some "TypeError" && containsSub e.message "fetch")

/-- The error `readMasterFile` rethrows for CORS failures. -/
def corsErrorMessage : String :=
  "CORS configuration required. See QUICK_CORS_FIX.md for setup instructions."

/-- Function `readMasterFile` of `masterFileService.ts`, as a function of the
outcome of the underlying download-and-parse: successful reads pass
through; a caught error is classified — "not found"-like errors yield
the empty row list, CORS-like errors are rethrown, and every other
error also yields the empty row list. -/
def readMasterFile (fetched : Except StorageError (List MergedRow)) :
    Except String (List MergedRow) :=
  match fetched with
  | .ok rows => .ok rows
  | .error e =>
    if isNotFoundError e then .ok []
    else if isCorsError e then .error corsErrorMessage
    else .ok []

/-! ### Dashboard bulk load (`masterFileLoader.ts`) -/

/-- JS `x || dflt` on an optional row property. -/
def jsOr (v : Option JVal) (dflt : JVal) : JVal :=
  match v with
  | some x => if x.truthy then x else dflt
  | none => dflt

/-- The dashboard `Order` produced by `mergedRowToOrder`. -/
structure Order where
  id : String
  orderId : String
  subOrderId : String
  platformId : String
  companyId : String
  productName : JVal
  sku : JVal
  skuName : JVal
  quantity : JVal
  status : JVal
  orderDate : JVal
  customerName : JVal
  customerState : JVal
  customerCity : JVal
  customerPincode : JVal
  wholesalePrice : JVal
  sellingPrice : JVal
  shippingCharge : JVal
  paymentMode : JVal
  hsn : JVal
  commission : JVal
  tcs : JVal
  tds : JVal
  shipperCharge : JVal
  netAmount : JVal
  gstRate : JVal
  invoiceNumber : JVal
  invoiceDate : JVal
  cgst : JVal
  sgst : JVal
  igst : JVal
  taxableValue : JVal
  invoiceAmount : JVal
  refundAmount : JVal
  deductionAmount : JVal
  refundReason : JVal
  refundDate : JVal
  gstRefund : JVal
  rawData : MergedRow
  createdAt : String
  updatedAt : String
deriving DecidableEq, Repr

/-- Function `mergedRowToOrder` of `masterFileLoader.ts` lines 7-51. -/
def mergedRowToOrder (row : MergedRow) (companyId platformId : String) : Order :=
  { id := row.orderId ++ "_" ++ (if row.subOrderId = "" then row.orderId else row.subOrderId)
    orderId := row.orderId
    subOrderId := if row.subOrderId = "" then row.orderId else row.subOrderId
    platformId := platformId
    companyId := companyId
    productName := jsOr row.productName (.str "")
    sku := jsOr row.sku (.str "")
    skuName := jsOr row.skuName (.str "")
    quantity := jsOr row.quantity (.num 0)
    status := jsOr row.status (.str "")
    orderDate := jsOr row.orderDate (.str "")
    customerName := jsOr row.customerName (.str "")
    customerState := jsOr row.customerState (.str "")
    customerCity := jsOr row.customerCity (.str "")
    customerPincode := jsOr row.customerPincode (.str "")
    wholesalePrice := jsOr row.wholesalePrice (.num 0)
    sellingPrice := jsOr row.sellingPrice (.num 0)
    shippingCharge := jsOr row.shippingCharge (.num 0)
    paymentMode := jsOr row.paymentMode (.str "")
    hsn := jsOr row.hsn (.str "")
    commission := jsOr row.commission (.num 0)
    tcs := jsOr row.tcs (.num 0)
    tds := jsOr row.tds (.num 0)
    shipperCharge := jsOr row.shipperCharge (.num 0)
    netAmount := jsOr row.netAmount (.num 0)
    gstRate := jsOr row.gstRate (.num 0)
    invoiceNumber := jsOr row.invoiceNumber (.str "")
    invoiceDate := jsOr row.invoiceDate (.str "")
    cgst := jsOr row.cgst (.num 0)
    sgst := jsOr row.sgst (.num 0)
    igst := jsOr row.igst (.num 0)
    taxableValue := jsOr row.taxableValue (.num 0)
    invoiceAmount := jsOr row.invoiceAmount (.num 0)
    refundAmount := jsOr row.refundAmount (.num 0)
    deductionAmount := jsOr row.deductionAmount (.num 0)
    refundReason := jsOr row.refundReason (.str "")
    refundDate := jsOr row.refundDate (.str "")
    gstRefund := .num 0
    rawData := row
    createdAt := ""
    updatedAt := "" }

/-- The per-master-file row mapping of `loadOrdersFromMasterFiles`:
filter out rows without a non-blank `orderId`, convert the rest. -/
def loadOrdersRows (rows : List MergedRow) (companyId platformId : String) : List Order :=
  (rows.filter (fun row => row.orderId ≠ "" ∧ jsTrim row.orderId ≠ "")).map
    (fun row => mergedRowToOrder row companyId platformId)

/-! ### Per-field view of the merge engine (proof infrastructure) -/

/-- The effect of `mergeRowData` on one known field, as a function of the
incoming value `y` and the existing value `x`: overwrite when the
per-kind guard `P` accepts `y`, then fill an absent slot from a defined
incoming value (the overflow loop). -/
def upd (P : Option JVal → Bool) (y x : Option JVal) : Option JVal :=
  fillAbsent (if P y then y else x) y

/-- Left fold of `upd` over the incoming values of a sequence of rows. -/
def updFold (P : Option JVal → Bool) (ys : List (Option JVal)) (x : Option JVal) : Option JVal :=
  ys.foldl (fun x y => upd P y x) x

/-- Guard of a string-typed field owned (with a truthiness test) by the
given kinds. -/
def ownTruthy (kinds : List FileType) (t : FileType) (y : Option JVal) : Bool :=
  decide (t ∈ kinds) && truthyO y

/-- Guard of a numeric-typed field owned (with a defined-ness test) by
the given kinds. -/
def ownSome (kinds : List FileType) (t : FileType) (y : Option JVal) : Bool :=
  decide (t ∈ kinds) && y.isSome

/-- Guard of the cross-cutting exception fields `status` and `gstRefund`:
any defined incoming value overwrites, whatever the record kind. -/
def alwaysSome (_ : FileType) (y : Option JVal) : Bool :=
  y.isSome

/-- Fold a batch of incoming rows into a record with the merge engine. -/
def mergeFold (t : FileType) (v : MergedRow) (l : List MergedRow) : MergedRow :=
  l.foldl (fun e r => mergeRowData e r t) v

/-- Canonical record produced from a nonempty same-key batch: the first
row, with the rest folded in. -/
def firstFold (t : FileType) : List MergedRow → Option MergedRow
  | [] => none
  | r0 :: rs => some (mergeFold t r0 rs)

/-- The rows of a batch that carry an order id and the given identity key. -/
def sameKeyRows (k : String) (rows : List MergedRow) : List MergedRow :=
  rows.filter (fun r => r.orderId ≠ "" && rowKey r = k)

/-- Key membership in the raw overflow columns. -/
def hasKeyR (m : List (String × String)) (k : String) : Bool :=
  m.any (fun kv => kv.1 = k)

/-- Well-formedness of the ledger index: keys are pairwise distinct and
every entry is stored under the identity key of its record. -/
def mapWF (m : MasterMap) : Prop :=
  (m.map Prod.fst).Nodup ∧ ∀ kv ∈ m, rowKey kv.2 = kv.1

/-- The identity-key formula as the specification words it (§3):
`lowercase(trim(orderId)) + "_" + lowercase(trim(subOrderId))`, with
`subOrderId` defaulting to `orderId` when absent.  Stated from the spec
for comparison against the implementation's `rowKey`. -/
def specIdentityKey (r : MergedRow) : String :=
  jsToLower (jsTrim r.orderId) ++ "_" ++
    jsToLower (jsTrim (if r.subOrderId = "" then r.orderId else r.subOrderId))

/-- Codepoint comparison of two characters. -/
def charCmp (c d : Char) : Ordering :=
  if c.toNat < d.toNat then .lt else if c.toNat = d.toNat then .eq else .gt

/-- Lexicographic codepoint comparison of two character sequences. -/
def listCmp : List Char → List Char → Ordering
  | [], [] => .eq
  | [], _ :: _ => .lt
  | _ :: _, [] => .gt
  | c :: cs, d :: ds =>
    match charCmp c d with
    | .eq => listCmp cs ds
    | o => o

/-- A concrete conforming `localeCompare`: plain codepoint comparison.
ECMA-262 leaves `localeCompare` implementation-defined, so any total
preorder is a legitimate instantiation of the `lc` parameter. -/
def lcCodepoint (a b : String) : Ordering :=
  listCmp a.data b.data

/-- Ascending-by-identity-key order on serialized records (lexicographic
codepoint order of the case-folded keys), the order claimed by the
specification for the persisted ledger. -/
def sortedByIdentityKey (l : List MergedRow) : Prop :=
  List.Sorted (fun a b => listCmp (rowKey a).data (rowKey b).data ≠ Ordering.gt) l

/-! ### Field projection lemmas for the merge engine -/


/-- Projection lemma: `mergeRowData` acts on `orderDate` as `upd` with guard `ownTruthy [.sales]`. -/
theorem mergeRowData_orderDate (e r : MergedRow) (t : FileType) :
    (mergeRowData e r t).orderDate = upd (ownTruthy [.sales] t) r.orderDate e.orderDate := by
  obtain ⟨_, _, v02, _, _, _, _, _, _, _, _, _, _, _, _, _, _, _, _, _, _, _, _, _, _, _, _, _, _, _, _, _, _, _, _, _⟩ := r
  cases t <;> cases v02 <;> rfl
/-- Projection lemma: `mergeRowData` acts on `productName` as `upd` with guard `ownTruthy [.sales, .payment, .gst]`. -/
theorem mergeRowData_productName (e r : MergedRow) (t : FileType) :
    (mergeRowData e r t).productName = upd (ownTruthy [.sales, .payment, .gst] t) r.productName e.productName := by
  obtain ⟨_, _, _, v03, _, _, _, _, _, _, _, _, _, _, _, _, _, _, _, _, _, _, _, _, _, _, _, _, _, _, _, _, _, _, _, _⟩ := r
  cases t <;> cases v03 <;> rfl
/-- Projection lemma: `mergeRowData` acts on `sku` as `upd` with guard `ownTruthy [.sales, .gst]`. -/
theorem mergeRowData_sku (e r : MergedRow) (t : FileType) :
    (mergeRowData e r t).sku = upd (ownTruthy [.sales, .gst] t) r.sku e.sku := by
  obtain ⟨_, _, _, _, v04, _, _, _, _, _, _, _, _, _, _, _, _, _, _, _, _, _, _, _, _, _, _, _, _, _, _, _, _, _, _, _⟩ := r
  cases t <;> cases v04 <;> rfl
/-- Projection lemma: `mergeRowData` acts on `skuName` as `upd` with guard `ownTruthy [.sales]`. -/
theorem mergeRowData_skuName (e r : MergedRow) (t : FileType) :
    (mergeRowData e r t).skuName = upd (ownTruthy [.sales] t) r.skuName e.skuName := by
  obtain ⟨_, _, _, _, _, v05, _, _, _, _, _, _, _, _, _, _, _, _, _, _, _, _, _, _, _, _, _, _, _, _, _, _, _, _, _, _⟩ := r
  cases t <;> cases v05 <;> rfl
/-- Projection lemma: `mergeRowData` acts on `quantity` as `upd` with guard `ownSome [.sales, .gst]`. -/
theorem mergeRowData_quantity (e r : MergedRow) (t : FileType) :
    (mergeRowData e r t).quantity = upd (ownSome [.sales, .gst] t) r.quantity e.quantity := by
  obtain ⟨_, _, _, _, _, _, v06, _, _, _, _, _, _, _, _, _, _, _, _, _, _, _, _, _, _, _, _, _, _, _, _, _, _, _, _, _⟩ := r
  cases t <;> cases v06 <;> rfl
/-- Projection lemma: `mergeRowData` acts on `status` as `upd` with guard `alwaysSome`. -/
theorem mergeRowData_status (e r : MergedRow) (t : FileType) :
    (mergeRowData e r t).status = upd (alwaysSome t) r.status e.status := by
  obtain ⟨_, _, _, _, _, _, _, v07, _, _, _, _, _, _, _, _, _, _, _, _, _, _, _, _, _, _, _, _, _, _, _, _, _, _, _, _⟩ := r
  cases t <;> cases v07 <;> rfl
/-- Projection lemma: `mergeRowData` acts on `customerName` as `upd` with guard `ownTruthy [.sales]`. -/
theorem mergeRowData_customerName (e r : MergedRow) (t : FileType) :
    (mergeRowData e r t).customerName = upd (ownTruthy [.sales] t) r.customerName e.customerName := by
  obtain ⟨_, _, _, _, _, _, _, _, v08, _, _, _, _, _, _, _, _, _, _, _, _, _, _, _, _, _, _, _, _, _, _, _, _, _, _, _⟩ := r
  cases t <;> cases v08 <;> rfl
/-- Projection lemma: `mergeRowData` acts on `customerState` as `upd` with guard `ownTruthy [.sales, .payment, .gst]`. -/
theorem mergeRowData_customerState (e r : MergedRow) (t : FileType) :
    (mergeRowData e r t).customerState = upd (ownTruthy [.sales, .payment, .gst] t) r.customerState e.customerState := by
  obtain ⟨_, _, _, _, _, _, _, _, _, v09, _, _, _, _, _, _, _, _, _, _, _, _, _, _, _, _, _, _, _, _, _, _, _, _, _, _⟩ := r
  cases t <;> cases v09 <;> rfl
/-- Projection lemma: `mergeRowData` acts on `customerCity` as `upd` with guard `ownTruthy [.sales, .payment]`. -/
theorem mergeRowData_customerCity (e r : MergedRow) (t : FileType) :
    (mergeRowData e r t).customerCity = upd (ownTruthy [.sales, .payment] t) r.customerCity e.customerCity := by
  obtain ⟨_, _, _, _, _, _, _, _, _, _, v10, _, _, _, _, _, _, _, _, _, _, _, _, _, _, _, _, _, _, _, _, _, _, _, _, _⟩ := r
  cases t <;> cases v10 <;> rfl
/-- Projection lemma: `mergeRowData` acts on `customerPincode` as `upd` with guard `ownTruthy [.sales, .payment]`. -/
theorem mergeRowData_customerPincode (e r : MergedRow) (t : FileType) :
    (mergeRowData e r t).customerPincode = upd (ownTruthy [.sales, .payment] t) r.customerPincode e.customerPincode := by
  obtain ⟨_, _, _, _, _, _, _, _, _, _, _, v11, _, _, _, _, _, _, _, _, _, _, _, _, _, _, _, _, _, _, _, _, _, _, _, _⟩ := r
  cases t <;> cases v11 <;> rfl
/-- Projection lemma: `mergeRowData` acts on `wholesalePrice` as `upd` with guard `ownSome [.sales, .payment]`. -/
theorem mergeRowData_wholesalePrice (e r : MergedRow) (t : FileType) :
    (mergeRowData e r t).wholesalePrice = upd (ownSome [.sales, .payment] t) r.wholesalePrice e.wholesalePrice := by
  obtain ⟨_, _, _, _, _, _, _, _, _, _, _, _, v12, _, _, _, _, _, _, _, _, _, _, _, _, _, _, _, _, _, _, _, _, _, _, _⟩ := r
  cases t <;> cases v12 <;> rfl
/-- Projection lemma: `mergeRowData` acts on `sellingPrice` as `upd` with guard `ownSome [.sales]`. -/
theorem mergeRowData_sellingPrice (e r : MergedRow) (t : FileType) :
    (mergeRowData e r t).sellingPrice = upd (ownSome [.sales] t) r.sellingPrice e.sellingPrice := by
  obtain ⟨_, _, _, _, _, _, _, _, _, _, _, _, _, v13, _, _, _, _, _, _, _, _, _, _, _, _, _, _, _, _, _, _, _, _, _, _⟩ := r
  cases t <;> cases v13 <;> rfl
/-- Projection lemma: `mergeRowData` acts on `shippingCharge` as `upd` with guard `ownSome [.sales, .payment]`. -/
theorem mergeRowData_shippingCharge (e r : MergedRow) (t : FileType) :
    (mergeRowData e r t).shippingCharge = upd (ownSome [.sales, .payment] t) r.shippingCharge e.shippingCharge := by
  obtain ⟨_, _, _, _, _, _, _, _, _, _, _, _, _, _, v14, _, _, _, _, _, _, _, _, _, _, _, _, _, _, _, _, _, _, _, _, _⟩ := r
  cases t <;> cases v14 <;> rfl
/-- Projection lemma: `mergeRowData` acts on `paymentMode` as `upd` with guard `ownTruthy [.payment]`. -/
theorem mergeRowData_paymentMode (e r : MergedRow) (t : FileType) :
    (mergeRowData e r t).paymentMode = upd (ownTruthy [.payment] t) r.paymentMode e.paymentMode := by
  obtain ⟨_, _, _, _, _, _, _, _, _, _, _, _, _, _, _, v15, _, _, _, _, _, _, _, _, _, _, _, _, _, _, _, _, _, _, _, _⟩ := r
  cases t <;> cases v15 <;> rfl
/-- Projection lemma: `mergeRowData` acts on `hsn` as `upd` with guard `ownTruthy [.payment, .gst]`. -/
theorem mergeRowData_hsn (e r : MergedRow) (t : FileType) :
    (mergeRowData e r t).hsn = upd (ownTruthy [.payment, .gst] t) r.hsn e.hsn := by
  obtain ⟨_, _, _, _, _, _, _, _, _, _, _, _, _, _, _, _, v16, _, _, _, _, _, _, _, _, _, _, _, _, _, _, _, _, _, _, _⟩ := r
  cases t <;> cases v16 <;> rfl
/-- Projection lemma: `mergeRowData` acts on `commission` as `upd` with guard `ownSome [.payment]`. -/
theorem mergeRowData_commission (e r : MergedRow) (t : FileType) :
    (mergeRowData e r t).commission = upd (ownSome [.payment] t) r.commission e.commission := by
  obtain ⟨_, _, _, _, _, _, _, _, _, _, _, _, _, _, _, _, _, v17, _, _, _, _, _, _, _, _, _, _, _, _, _, _, _, _, _, _⟩ := r
  cases t <;> cases v17 <;> rfl
/-- Projection lemma: `mergeRowData` acts on `tcs` as `upd` with guard `ownSome [.payment]`. -/
theorem mergeRowData_tcs (e r : MergedRow) (t : FileType) :
    (mergeRowData e r t).tcs = upd (ownSome [.payment] t) r.tcs e.tcs := by
  obtain ⟨_, _, _, _, _, _, _, _, _, _, _, _, _, _, _, _, _, _, v18, _, _, _, _, _, _, _, _, _, _, _, _, _, _, _, _, _⟩ := r
  cases t <;> cases v18 <;> rfl
/-- Projection lemma: `mergeRowData` acts on `tds` as `upd` with guard `ownSome [.payment]`. -/
theorem mergeRowData_tds (e r : MergedRow) (t : FileType) :
    (mergeRowData e r t).tds = upd (ownSome [.payment] t) r.tds e.tds := by
  obtain ⟨_, _, _, _, _, _, _, _, _, _, _, _, _, _, _, _, _, _, _, v19, _, _, _, _, _, _, _, _, _, _, _, _, _, _, _, _⟩ := r
  cases t <;> cases v19 <;> rfl
/-- Projection lemma: `mergeRowData` acts on `shipperCharge` as `upd` with guard `ownSome [.payment]`. -/
theorem mergeRowData_shipperCharge (e r : MergedRow) (t : FileType) :
    (mergeRowData e r t).shipperCharge = upd (ownSome [.payment] t) r.shipperCharge e.shipperCharge := by
  obtain ⟨_, _, _, _, _, _, _, _, _, _, _, _, _, _, _, _, _, _, _, _, v20, _, _, _, _, _, _, _, _, _, _, _, _, _, _, _⟩ := r
  cases t <;> cases v20 <;> rfl
/-- Projection lemma: `mergeRowData` acts on `netAmount` as `upd` with guard `ownSome [.payment]`. -/
theorem mergeRowData_netAmount (e r : MergedRow) (t : FileType) :
    (mergeRowData e r t).netAmount = upd (ownSome [.payment] t) r.netAmount e.netAmount := by
  obtain ⟨_, _, _, _, _, _, _, _, _, _, _, _, _, _, _, _, _, _, _, _, _, v21, _, _, _, _, _, _, _, _, _, _, _, _, _, _⟩ := r
  cases t <;> cases v21 <;> rfl
/-- Projection lemma: `mergeRowData` acts on `gstRate` as `upd` with guard `ownSome [.gst]`. -/
theorem mergeRowData_gstRate (e r : MergedRow) (t : FileType) :
    (mergeRowData e r t).gstRate = upd (ownSome [.gst] t) r.gstRate e.gstRate := by
  obtain ⟨_, _, _, _, _, _, _, _, _, _, _, _, _, _, _, _, _, _, _, _, _, _, v22, _, _, _, _, _, _, _, _, _, _, _, _, _⟩ := r
  cases t <;> cases v22 <;> rfl
/-- Projection lemma: `mergeRowData` acts on `invoiceNumber` as `upd` with guard `ownTruthy [.gst]`. -/
theorem mergeRowData_invoiceNumber (e r : MergedRow) (t : FileType) :
    (mergeRowData e r t).invoiceNumber = upd (ownTruthy [.gst] t) r.invoiceNumber e.invoiceNumber := by
  obtain ⟨_, _, _, _, _, _, _, _, _, _, _, _, _, _, _, _, _, _, _, _, _, _, _, v23, _, _, _, _, _, _, _, _, _, _, _, _⟩ := r
  cases t <;> cases v23 <;> rfl
/-- Projection lemma: `mergeRowData` acts on `invoiceDate` as `upd` with guard `ownTruthy [.gst]`. -/
theorem mergeRowData_invoiceDate (e r : MergedRow) (t : FileType) :
    (mergeRowData e r t).invoiceDate = upd (ownTruthy [.gst] t) r.invoiceDate e.invoiceDate := by
  obtain ⟨_, _, _, _, _, _, _, _, _, _, _, _, _, _, _, _, _, _, _, _, _, _, _, _, v24, _, _, _, _, _, _, _, _, _, _, _⟩ := r
  cases t <;> cases v24 <;> rfl
/-- Projection lemma: `mergeRowData` acts on `cgst` as `upd` with guard `ownSome [.gst]`. -/
theorem mergeRowData_cgst (e r : MergedRow) (t : FileType) :
    (mergeRowData e r t).cgst = upd (ownSome [.gst] t) r.cgst e.cgst := by
  obtain ⟨_, _, _, _, _, _, _, _, _, _, _, _, _, _, _, _, _, _, _, _, _, _, _, _, _, v25, _, _, _, _, _, _, _, _, _, _⟩ := r
  cases t <;> cases v25 <;> rfl
/-- Projection lemma: `mergeRowData` acts on `sgst` as `upd` with guard `ownSome [.gst]`. -/
theorem mergeRowData_sgst (e r : MergedRow) (t : FileType) :
    (mergeRowData e r t).sgst = upd (ownSome [.gst] t) r.sgst e.sgst := by
  obtain ⟨_, _, _, _, _, _, _, _, _, _, _, _, _, _, _, _, _, _, _, _, _, _, _, _, _, _, v26, _, _, _, _, _, _, _, _, _⟩ := r
  cases t <;> cases v26 <;> rfl
/-- Projection lemma: `mergeRowData` acts on `igst` as `upd` with guard `ownSome [.gst]`. -/
theorem mergeRowData_igst (e r : MergedRow) (t : FileType) :
    (mergeRowData e r t).igst = upd (ownSome [.gst] t) r.igst e.igst := by
  obtain ⟨_, _, _, _, _, _, _, _, _, _, _, _, _, _, _, _, _, _, _, _, _, _, _, _, _, _, _, v27, _, _, _, _, _, _, _, _⟩ := r
  cases t <;> cases v27 <;> rfl
/-- Projection lemma: `mergeRowData` acts on `taxableValue` as `upd` with guard `ownSome [.gst]`. -/
theorem mergeRowData_taxableValue (e r : MergedRow) (t : FileType) :
    (mergeRowData e r t).taxableValue = upd (ownSome [.gst] t) r.taxableValue e.taxableValue := by
  obtain ⟨_, _, _, _, _, _, _, _, _, _, _, _, _, _, _, _, _, _, _, _, _, _, _, _, _, _, _, _, v28, _, _, _, _, _, _, _⟩ := r
  cases t <;> cases v28 <;> rfl
/-- Projection lemma: `mergeRowData` acts on `invoiceAmount` as `upd` with guard `ownSome [.gst]`. -/
theorem mergeRowData_invoiceAmount (e r : MergedRow) (t : FileType) :
    (mergeRowData e r t).invoiceAmount = upd (ownSome [.gst] t) r.invoiceAmount e.invoiceAmount := by
  obtain ⟨_, _, _, _, _, _, _, _, _, _, _, _, _, _, _, _, _, _, _, _, _, _, _, _, _, _, _, _, _, v29, _, _, _, _, _, _⟩ := r
  cases t <;> cases v29 <;> rfl
/-- Projection lemma: `mergeRowData` acts on `refundAmount` as `upd` with guard `ownSome [.refund]`. -/
theorem mergeRowData_refundAmount (e r : MergedRow) (t : FileType) :
    (mergeRowData e r t).refundAmount = upd (ownSome [.refund] t) r.refundAmount e.refundAmount := by
  obtain ⟨_, _, _, _, _, _, _, _, _, _, _, _, _, _, _, _, _, _, _, _, _, _, _, _, _, _, _, _, _, _, v30, _, _, _, _, _⟩ := r
  cases t <;> cases v30 <;> rfl
/-- Projection lemma: `mergeRowData` acts on `deductionAmount` as `upd` with guard `ownSome [.refund]`. -/
theorem mergeRowData_deductionAmount (e r : MergedRow) (t : FileType) :
    (mergeRowData e r t).deductionAmount = upd (ownSome [.refund] t) r.deductionAmount e.deductionAmount := by
  obtain ⟨_, _, _, _, _, _, _, _, _, _, _, _, _, _, _, _, _, _, _, _, _, _, _, _, _, _, _, _, _, _, _, v31, _, _, _, _⟩ := r
  cases t <;> cases v31 <;> rfl
/-- Projection lemma: `mergeRowData` acts on `refundReason` as `upd` with guard `ownTruthy [.refund]`. -/
theorem mergeRowData_refundReason (e r : MergedRow) (t : FileType) :
    (mergeRowData e r t).refundReason = upd (ownTruthy [.refund] t) r.refundReason e.refundReason := by
  obtain ⟨_, _, _, _, _, _, _, _, _, _, _, _, _, _, _, _, _, _, _, _, _, _, _, _, _, _, _, _, _, _, _, _, v32, _, _, _⟩ := r
  cases t <;> cases v32 <;> rfl
/-- Projection lemma: `mergeRowData` acts on `refundDate` as `upd` with guard `ownTruthy [.refund]`. -/
theorem mergeRowData_refundDate (e r : MergedRow) (t : FileType) :
    (mergeRowData e r t).refundDate = upd (ownTruthy [.refund] t) r.refundDate e.refundDate := by
  obtain ⟨_, _, _, _, _, _, _, _, _, _, _, _, _, _, _, _, _, _, _, _, _, _, _, _, _, _, _, _, _, _, _, _, _, v33, _, _⟩ := r
  cases t <;> cases v33 <;> rfl
/-- Projection lemma: `mergeRowData` acts on `gstRefund` as `upd` with guard `alwaysSome`. -/
theorem mergeRowData_gstRefund (e r : MergedRow) (t : FileType) :
    (mergeRowData e r t).gstRefund = upd (alwaysSome t) r.gstRefund e.gstRefund := by
  obtain ⟨_, _, _, _, _, _, _, _, _, _, _, _, _, _, _, _, _, _, _, _, _, _, _, _, _, _, _, _, _, _, _, _, _, _, v34, _⟩ := r
  cases t <;> cases v34 <;> rfl


/-- Projection lemma: the merge always keeps the existing `orderId`. -/
theorem mergeRowData_orderId (e r : MergedRow) (t : FileType) :
    (mergeRowData e r t).orderId = e.orderId := by
  cases t <;> rfl

/-- Projection lemma: the merge keeps the existing `subOrderId`, defaulting
it to the existing `orderId` when empty. -/
theorem mergeRowData_subOrderId (e r : MergedRow) (t : FileType) :
    (mergeRowData e r t).subOrderId =
      if e.subOrderId = "" then e.orderId else e.subOrderId := by
  cases t <;> rfl

/-- Projection lemma: the overflow columns are merged first-writer-wins. -/
theorem mergeRowData_raw (e r : MergedRow) (t : FileType) :
    (mergeRowData e r t).raw = rawUnion e.raw r.raw := by
  cases t <;> rfl

/-! ### Generic update lemmas -/

/-- Filling from an undefined incoming value is a no-op. -/
theorem fillAbsent_none_right (x : Option JVal) : fillAbsent x none = x := by
  cases x <;> rfl

/-- A present existing value is never changed by the overflow fill. -/
theorem fillAbsent_some_left (v : JVal) (y : Option JVal) :
    fillAbsent (some v) y = some v := rfl

/-- Filling a value with itself is the identity. -/
theorem fillAbsent_self (y : Option JVal) : fillAbsent y y = y := by
  cases y <;> rfl

/-- When the guard accepts the incoming value, `upd` overwrites with it. -/
theorem upd_pos {P : Option JVal → Bool} {y : Option JVal} (h : P y = true)
    (x : Option JVal) : upd P y x = y := by
  simp [upd, h, fillAbsent_self]

/-- When the guard rejects the incoming value, `upd` only fills an absent
slot. -/
theorem upd_neg {P : Option JVal → Bool} {y : Option JVal} (h : P y = false)
    (x : Option JVal) : upd P y x = fillAbsent x y := by
  simp [upd, h]

/-- Lemma: `upd` never turns a present value into an absent one, provided the
guard only accepts present values. -/
theorem upd_isSome {P : Option JVal → Bool} (HP : ∀ y, P y = true → y.isSome)
    {x : Option JVal} (hx : x.isSome) (y : Option JVal) : (upd P y x).isSome := by
  by_cases h : P y = true
  · rw [upd_pos h]; exact HP y h
  · have h' : P y = false := by simpa using h
    rw [upd_neg h']
    obtain ⟨v, rfl⟩ := Option.isSome_iff_exists.mp hx
    simp [fillAbsent_some_left]

/-- Lemma: `updFold` preserves presence. -/
theorem updFold_isSome {P : Option JVal → Bool} (HP : ∀ y, P y = true → y.isSome)
    (ys : List (Option JVal)) {x : Option JVal} (hx : x.isSome) :
    (updFold P ys x).isSome := by
  induction ys generalizing x with
  | nil => exact hx
  | cons y t ih => exact ih (upd_isSome HP hx y)

/-- Replaying the same value sequence over an `updFold` result changes
nothing. -/
theorem updFold_idem {P : Option JVal → Bool} (HP : ∀ y, P y = true → y.isSome)
    (ys : List (Option JVal)) (x : Option JVal) :
    updFold P ys (updFold P ys x) = updFold P ys x := by
  induction ys generalizing x with
  | nil => rfl
  | cons y t ih =>
    show updFold P t (upd P y (updFold P t (upd P y x))) = updFold P t (upd P y x)
    by_cases hP : P y = true
    · simp only [upd_pos hP]
    · have hP' : P y = false := by simpa using hP
      rw [upd_neg hP']
      cases hz : updFold P t (upd P y x) with
      | some v =>
        have h2 := ih (upd P y x)
        rw [hz] at h2
        rw [fillAbsent_some_left]
        exact h2
      | none =>
        have hys : upd P y x = none := by
          by_contra hne
          have := updFold_isSome HP t (Option.isSome_iff_ne_none.mpr hne)
          rw [hz] at this; exact absurd this (by simp)
        have hy : y = none := by
          rw [upd_neg hP'] at hys
          cases x with
          | some v => simp [fillAbsent] at hys
          | none => simpa [fillAbsent] using hys
        have h2 := hz
        rw [hys] at h2
        rw [hy]
        simpa [fillAbsent] using h2

/-- Replaying a row sequence beginning with the value that seeded the
fold is the identity on the fold's result. -/
theorem updFold_replay {P : Option JVal → Bool} (HP : ∀ y, P y = true → y.isSome)
    (ys : List (Option JVal)) (y0 : Option JVal) :
    updFold P ys (upd P y0 (updFold P ys y0)) = updFold P ys y0 := by
  by_cases hP : P y0 = true
  · rw [upd_pos hP]
  · have hP' : P y0 = false := by simpa using hP
    rw [upd_neg hP']
    cases hz : updFold P ys y0 with
    | some v =>
      have h2 := updFold_idem HP ys y0
      rw [hz] at h2
      rw [fillAbsent_some_left]
      exact h2
    | none =>
      exact hz

/-- The truthiness guards only accept defined values. -/
theorem ownTruthy_isSome (kinds : List FileType) (t : FileType) :
    ∀ y, ownTruthy kinds t y = true → y.isSome := by
  intro y h
  cases y with
  | none => simp [ownTruthy, truthyO] at h
  | some v => rfl

/-- The defined-ness guards only accept defined values. -/
theorem ownSome_isSome (kinds : List FileType) (t : FileType) :
    ∀ y, ownSome kinds t y = true → y.isSome := by
  intro y h
  cases y with
  | none => simp [ownSome] at h
  | some v => rfl

/-- The exception-field guard only accepts defined values. -/
theorem alwaysSome_isSome (t : FileType) :
    ∀ y, alwaysSome t y = true → y.isSome := fun _ h => h

/-! ### Merge-fold lemmas -/

/-- A known field of a merge-fold is the `updFold` of that field's guard
over the incoming values. -/
theorem mergeFold_field {t : FileType} (proj : MergedRow → Option JVal)
    (P : Option JVal → Bool)
    (hproj : ∀ e r, proj (mergeRowData e r t) = upd P (proj r) (proj e)) :
    ∀ (l : List MergedRow) (v : MergedRow),
      proj (mergeFold t v l) = updFold P (l.map proj) (proj v) := by
  intro l
  induction l with
  | nil => intro v; rfl
  | cons r rs ih =>
    intro v
    show proj (mergeFold t (mergeRowData v r t) rs) = updFold P (rs.map proj) (upd P (proj r) (proj v))
    rw [ih, hproj]

/-- A merge-fold never changes `orderId`. -/
theorem mergeFold_orderId (t : FileType) (v : MergedRow) (l : List MergedRow) :
    (mergeFold t v l).orderId = v.orderId := by
  induction l generalizing v with
  | nil => rfl
  | cons r rs ih =>
    show (mergeFold t (mergeRowData v r t) rs).orderId = v.orderId
    rw [ih, mergeRowData_orderId]

/-- A merge-fold keeps a nonempty `subOrderId` unchanged. -/
theorem mergeFold_subOrderId (t : FileType) (v : MergedRow) (l : List MergedRow)
    (h : v.subOrderId ≠ "") : (mergeFold t v l).subOrderId = v.subOrderId := by
  induction l generalizing v with
  | nil => rfl
  | cons r rs ih =>
    show (mergeFold t (mergeRowData v r t) rs).subOrderId = v.subOrderId
    have hsub : (mergeRowData v r t).subOrderId = v.subOrderId := by
      rw [mergeRowData_subOrderId, if_neg h]
    rw [ih (mergeRowData v r t) (by rw [hsub]; exact h), hsub]

/-- The merge engine stores records under an unchanging identity key. -/
theorem rowKey_mergeRowData (e r : MergedRow) (t : FileType) :
    rowKey (mergeRowData e r t) = rowKey e := by
  unfold rowKey
  rw [mergeRowData_orderId, mergeRowData_subOrderId]
  by_cases h : e.subOrderId = "" <;> simp [h]

/-- The raw overflow of a merge-fold is a `rawUnion` fold. -/
theorem mergeFold_raw (t : FileType) (v : MergedRow) (l : List MergedRow) :
    (mergeFold t v l).raw = (l.map MergedRow.raw).foldl rawUnion v.raw := by
  induction l generalizing v with
  | nil => rfl
  | cons r rs ih =>
    show (mergeFold t (mergeRowData v r t) rs).raw = _
    rw [ih, mergeRowData_raw]
    rfl

/-! ### Raw-union lemmas -/

/-- Unfolding `rawUnion` over a cons. -/
theorem rawUnion_cons (m : List (String × String)) (kv : String × String)
    (t : List (String × String)) :
    rawUnion m (kv :: t) =
      rawUnion (if m.any (fun kv' => kv'.1 = kv.1) then m else m ++ [kv]) t := rfl

/-- A key of a raw list is a key of itself. -/
theorem hasKeyR_self {m : List (String × String)} {kv : String × String}
    (h : kv ∈ m) : hasKeyR m kv.1 = true := by
  simp only [hasKeyR, List.any_eq_true]
  exact ⟨kv, h, by simp⟩

/-- Lemma: `rawUnion` keeps every key of its left argument. -/
theorem hasKeyR_rawUnion_left {k : String} :
    ∀ (l : List (String × String)) {m : List (String × String)},
      hasKeyR m k = true → hasKeyR (rawUnion m l) k = true := by
  intro l
  induction l with
  | nil => intro m h; exact h
  | cons kv t ih =>
    intro m h
    rw [rawUnion_cons]
    by_cases hm : m.any (fun kv' => kv'.1 = kv.1) = true
    · rw [if_pos hm]; exact ih h
    · rw [if_neg hm]
      refine ih ?_
      simp only [hasKeyR, List.any_append, Bool.or_eq_true]
      exact Or.inl h

/-- Lemma: `rawUnion` covers every key of its right argument. -/
theorem hasKeyR_rawUnion_elem :
    ∀ (l : List (String × String)) (m : List (String × String)) (kv : String × String),
      kv ∈ l → hasKeyR (rawUnion m l) kv.1 = true := by
  intro l
  induction l with
  | nil => intro m kv h; cases h
  | cons kv' t ih =>
    intro m kv h
    rcases List.mem_cons.mp h with rfl | ht
    · rw [rawUnion_cons]
      by_cases hm : m.any (fun x => x.1 = kv.1) = true
      · rw [if_pos hm]
        exact hasKeyR_rawUnion_left t hm
      · rw [if_neg hm]
        refine hasKeyR_rawUnion_left t ?_
        simp [hasKeyR, List.any_append]
    · exact ih _ kv ht

/-- When every key of the incoming raw columns is already present,
`rawUnion` is the identity. -/
theorem rawUnion_absorbed :
    ∀ (l : List (String × String)) (m : List (String × String)),
      (∀ kv ∈ l, hasKeyR m kv.1 = true) → rawUnion m l = m := by
  intro l
  induction l with
  | nil => intro m _; rfl
  | cons kv t ih =>
    intro m h
    rw [rawUnion_cons]
    have hm : m.any (fun kv' => kv'.1 = kv.1) = true := h kv (List.mem_cons_self kv t)
    rw [if_pos hm]
    exact ih m (fun kv' h' => h kv' (List.mem_cons_of_mem kv h'))

/-- Keys survive a whole `rawUnion` fold. -/
theorem foldRaw_mono {k : String} :
    ∀ (L : List (List (String × String))) {acc : List (String × String)},
      hasKeyR acc k = true → hasKeyR (L.foldl rawUnion acc) k = true := by
  intro L
  induction L with
  | nil => intro acc h; exact h
  | cons l t ih => intro acc h; exact ih (hasKeyR_rawUnion_left l h)

/-- Every key of every contributing raw list ends up in the fold. -/
theorem foldRaw_elem_keys :
    ∀ (L : List (List (String × String))) (acc : List (String × String))
      (l' : List (String × String)) (kv : String × String),
      l' ∈ L → kv ∈ l' → hasKeyR (L.foldl rawUnion acc) kv.1 = true := by
  intro L
  induction L with
  | nil => intro acc l' kv h _; cases h
  | cons l t ih =>
    intro acc l' kv h hkv
    rcases List.mem_cons.mp h with rfl | ht
    · exact foldRaw_mono t (hasKeyR_rawUnion_elem l' acc kv hkv)
    · exact ih _ l' kv ht hkv

/-- A fold whose contributions are all already covered is the identity. -/
theorem foldRaw_stable :
    ∀ (L : List (List (String × String))) (V : List (String × String)),
      (∀ l' ∈ L, ∀ kv ∈ l', hasKeyR V kv.1 = true) → L.foldl rawUnion V = V := by
  intro L
  induction L with
  | nil => intro V _; rfl
  | cons l t ih =>
    intro V h
    show t.foldl rawUnion (rawUnion V l) = V
    rw [rawUnion_absorbed l V (h l (List.mem_cons_self l t))]
    exact ih V (fun l' h' => h l' (List.mem_cons_of_mem l h'))

/-- Replaying the batch over the merge-fold leaves the raw columns
unchanged. -/
theorem mergeFold_raw_replay (t : FileType) (r0 : MergedRow) (rs : List MergedRow) :
    (mergeFold t (mergeFold t r0 rs) (r0 :: rs)).raw = (mergeFold t r0 rs).raw := by
  rw [mergeFold_raw, mergeFold_raw]
  show (rs.map MergedRow.raw).foldl rawUnion
      (rawUnion ((rs.map MergedRow.raw).foldl rawUnion r0.raw) r0.raw) =
    (rs.map MergedRow.raw).foldl rawUnion r0.raw
  have habs : rawUnion ((rs.map MergedRow.raw).foldl rawUnion r0.raw) r0.raw =
      (rs.map MergedRow.raw).foldl rawUnion r0.raw :=
    rawUnion_absorbed _ _ (fun kv hkv => foldRaw_mono _ (hasKeyR_self hkv))
  rw [habs]
  exact foldRaw_stable _ _ (fun l' hl' kv hkv => foldRaw_elem_keys _ _ l' kv hl' hkv)

/-- One known field survives the replay of its own batch. -/
theorem replay_field {t : FileType} (proj : MergedRow → Option JVal)
    (P : Option JVal → Bool)
    (hproj : ∀ e r, proj (mergeRowData e r t) = upd P (proj r) (proj e))
    (HP : ∀ y, P y = true → y.isSome) (r0 : MergedRow) (rs : List MergedRow) :
    proj (mergeFold t (mergeFold t r0 rs) (r0 :: rs)) = proj (mergeFold t r0 rs) := by
  rw [mergeFold_field proj P hproj, mergeFold_field proj P hproj]
  show updFold P (rs.map proj) (upd P (proj r0) (updFold P (rs.map proj) (proj r0))) = _
  exact updFold_replay HP _ _

/-- Replaying a same-key batch over its own merge-fold is the identity:
the record produced by folding `r0 :: rs` absorbs a second pass of
`r0 :: rs`. -/
theorem mergeFold_replay (t : FileType) (r0 : MergedRow) (rs : List MergedRow)
    (h0 : r0.subOrderId ≠ "") :
    mergeFold t (mergeFold t r0 rs) (r0 :: rs) = mergeFold t r0 rs := by
  exact MergedRow.ext
    (mergeFold_orderId t (mergeFold t r0 rs) (r0 :: rs))
    (mergeFold_subOrderId t (mergeFold t r0 rs) (r0 :: rs)
      (by rw [mergeFold_subOrderId t r0 rs h0]; exact h0))
    (replay_field (fun x => x.orderDate) (ownTruthy [.sales] t)
      (fun e r => mergeRowData_orderDate e r t) (ownTruthy_isSome _ t) r0 rs)
    (replay_field (fun x => x.productName) (ownTruthy [.sales, .payment, .gst] t)
      (fun e r => mergeRowData_productName e r t) (ownTruthy_isSome _ t) r0 rs)
    (replay_field (fun x => x.sku) (ownTruthy [.sales, .gst] t)
      (fun e r => mergeRowData_sku e r t) (ownTruthy_isSome _ t) r0 rs)
    (replay_field (fun x => x.skuName) (ownTruthy [.sales] t)
      (fun e r => mergeRowData_skuName e r t) (ownTruthy_isSome _ t) r0 rs)
    (replay_field (fun x => x.quantity) (ownSome [.sales, .gst] t)
      (fun e r => mergeRowData_quantity e r t) (ownSome_isSome _ t) r0 rs)
    (replay_field (fun x => x.status) (alwaysSome t)
      (fun e r => mergeRowData_status e r t) (alwaysSome_isSome t) r0 rs)
    (replay_field (fun x => x.customerName) (ownTruthy [.sales] t)
      (fun e r => mergeRowData_customerName e r t) (ownTruthy_isSome _ t) r0 rs)
    (replay_field (fun x => x.customerState) (ownTruthy [.sales, .payment, .gst] t)
      (fun e r => mergeRowData_customerState e r t) (ownTruthy_isSome _ t) r0 rs)
    (replay_field (fun x => x.customerCity) (ownTruthy [.sales, .payment] t)
      (fun e r => mergeRowData_customerCity e r t) (ownTruthy_isSome _ t) r0 rs)
    (replay_field (fun x => x.customerPincode) (ownTruthy [.sales, .payment] t)
      (fun e r => mergeRowData_customerPincode e r t) (ownTruthy_isSome _ t) r0 rs)
    (replay_field (fun x => x.wholesalePrice) (ownSome [.sales, .payment] t)
      (fun e r => mergeRowData_wholesalePrice e r t) (ownSome_isSome _ t) r0 rs)
    (replay_field (fun x => x.sellingPrice) (ownSome [.sales] t)
      (fun e r => mergeRowData_sellingPrice e r t) (ownSome_isSome _ t) r0 rs)
    (replay_field (fun x => x.shippingCharge) (ownSome [.sales, .payment] t)
      (fun e r => mergeRowData_shippingCharge e r t) (ownSome_isSome _ t) r0 rs)
    (replay_field (fun x => x.paymentMode) (ownTruthy [.payment] t)
      (fun e r => mergeRowData_paymentMode e r t) (ownTruthy_isSome _ t) r0 rs)
    (replay_field (fun x => x.hsn) (ownTruthy [.payment, .gst] t)
      (fun e r => mergeRowData_hsn e r t) (ownTruthy_isSome _ t) r0 rs)
    (replay_field (fun x => x.commission) (ownSome [.payment] t)
      (fun e r => mergeRowData_commission e r t) (ownSome_isSome _ t) r0 rs)
    (replay_field (fun x => x.tcs) (ownSome [.payment] t)
      (fun e r => mergeRowData_tcs e r t) (ownSome_isSome _ t) r0 rs)
    (replay_field (fun x => x.tds) (ownSome [.payment] t)
      (fun e r => mergeRowData_tds e r t) (ownSome_isSome _ t) r0 rs)
    (replay_field (fun x => x.shipperCharge) (ownSome [.payment] t)
      (fun e r => mergeRowData_shipperCharge e r t) (ownSome_isSome _ t) r0 rs)
    (replay_field (fun x => x.netAmount) (ownSome [.payment] t)
      (fun e r => mergeRowData_netAmount e r t) (ownSome_isSome _ t) r0 rs)
    (replay_field (fun x => x.gstRate) (ownSome [.gst] t)
      (fun e r => mergeRowData_gstRate e r t) (ownSome_isSome _ t) r0 rs)
    (replay_field (fun x => x.invoiceNumber) (ownTruthy [.gst] t)
      (fun e r => mergeRowData_invoiceNumber e r t) (ownTruthy_isSome _ t) r0 rs)
    (replay_field (fun x => x.invoiceDate) (ownTruthy [.gst] t)
      (fun e r => mergeRowData_invoiceDate e r t) (ownTruthy_isSome _ t) r0 rs)
    (replay_field (fun x => x.cgst) (ownSome [.gst] t)
      (fun e r => mergeRowData_cgst e r t) (ownSome_isSome _ t) r0 rs)
    (replay_field (fun x => x.sgst) (ownSome [.gst] t)
      (fun e r => mergeRowData_sgst e r t) (ownSome_isSome _ t) r0 rs)
    (replay_field (fun x => x.igst) (ownSome [.gst] t)
      (fun e r => mergeRowData_igst e r t) (ownSome_isSome _ t) r0 rs)
    (replay_field (fun x => x.taxableValue) (ownSome [.gst] t)
      (fun e r => mergeRowData_taxableValue e r t) (ownSome_isSome _ t) r0 rs)
    (replay_field (fun x => x.invoiceAmount) (ownSome [.gst] t)
      (fun e r => mergeRowData_invoiceAmount e r t) (ownSome_isSome _ t) r0 rs)
    (replay_field (fun x => x.refundAmount) (ownSome [.refund] t)
      (fun e r => mergeRowData_refundAmount e r t) (ownSome_isSome _ t) r0 rs)
    (replay_field (fun x => x.deductionAmount) (ownSome [.refund] t)
      (fun e r => mergeRowData_deductionAmount e r t) (ownSome_isSome _ t) r0 rs)
    (replay_field (fun x => x.refundReason) (ownTruthy [.refund] t)
      (fun e r => mergeRowData_refundReason e r t) (ownTruthy_isSome _ t) r0 rs)
    (replay_field (fun x => x.refundDate) (ownTruthy [.refund] t)
      (fun e r => mergeRowData_refundDate e r t) (ownTruthy_isSome _ t) r0 rs)
    (replay_field (fun x => x.gstRefund) (alwaysSome t)
      (fun e r => mergeRowData_gstRefund e r t) (alwaysSome_isSome t) r0 rs)
    (mergeFold_raw_replay t r0 rs)


/-! ### Ledger-index (association map) lemmas -/

/-- Looking up in a replaced map hits the replacement. -/
theorem mlookup_map_replace {k : String} {v : MergedRow} :
    ∀ (m : MasterMap), (mlookup k m).isSome →
      mlookup k (m.map (fun kv => if kv.1 = k then (k, v) else kv)) = some v := by
  intro m
  induction m with
  | nil => intro h; simp [mlookup] at h
  | cons kv t ih =>
    intro h
    by_cases hk : kv.1 = k
    · simp [mlookup, hk]
    · have h' : (mlookup k t).isSome := by simpa [mlookup, hk] using h
      simpa [mlookup, hk] using ih h'

/-- Combined lookup over appended maps. -/
theorem mlookup_append (k : String) :
    ∀ (m m' : MasterMap),
      mlookup k (m ++ m') =
        match mlookup k m with
        | some v => some v
        | none => mlookup k m' := by
  intro m m'
  induction m with
  | nil => simp [mlookup]
  | cons kv t ih =>
    by_cases hk : kv.1 = k
    · simp [mlookup, hk]
    · simpa [mlookup, hk] using ih

/-- Lemma: `Map.set` makes the key look up to the new value. -/
theorem mlookup_mapSet_self (k : String) (v : MergedRow) (m : MasterMap) :
    mlookup k (mapSet k v m) = some v := by
  unfold mapSet
  by_cases h : (mlookup k m).isSome
  · rw [if_pos h]
    exact mlookup_map_replace m h
  · rw [if_neg h, mlookup_append]
    have h0 : mlookup k m = none := by
      cases hm : mlookup k m
      · rfl
      · rw [hm] at h; exact absurd rfl h
    rw [h0]
    simp [mlookup]

/-- Lemma: `Map.set` leaves other keys' lookups unchanged. -/
theorem mlookup_mapSet_ne {k k' : String} (hne : k ≠ k') (v : MergedRow) (m : MasterMap) :
    mlookup k (mapSet k' v m) = mlookup k m := by
  unfold mapSet
  by_cases h : (mlookup k' m).isSome
  · rw [if_pos h]
    clear h
    induction m with
    | nil => rfl
    | cons kv t ih =>
      by_cases hk : kv.1 = k'
      · simp [mlookup, hk, Ne.symm hne, ih]
      · by_cases hkk : kv.1 = k <;> simp [mlookup, hk, hkk, hne, ih]
  · rw [if_neg h, mlookup_append]
    cases hm : mlookup k m
    · simp [mlookup, Ne.symm hne]
    · rfl

/-- Lookup misses exactly the keys not present in the map. -/
theorem mlookup_eq_none_iff (k : String) :
    ∀ (m : MasterMap), mlookup k m = none ↔ k ∉ m.map Prod.fst := by
  intro m
  induction m with
  | nil => simp [mlookup]
  | cons kv t ih =>
    by_cases hk : kv.1 = k
    · simp [mlookup, hk]
    · show (if kv.1 = k then some kv.2 else mlookup k t) = none ↔ _
      rw [if_neg hk]
      simp only [List.map_cons, List.mem_cons]
      rw [ih]
      constructor
      · intro hn hmem
        rcases hmem with h1 | h2
        · exact hk h1.symm
        · exact hn h2
      · intro hn hmem
        exact hn (Or.inr hmem)

/-- A successful lookup is membership. -/
theorem mlookup_mem {k : String} {v : MergedRow} :
    ∀ {m : MasterMap}, mlookup k m = some v → (k, v) ∈ m := by
  intro m
  induction m with
  | nil => intro h; simp [mlookup] at h
  | cons kv t ih =>
    intro h
    obtain ⟨k1, k2⟩ := kv
    by_cases hk : k1 = k
    · subst hk
      have h2 : k2 = v := by simpa [mlookup] using h
      subst h2
      exact List.mem_cons_self _ _
    · have := ih (by simpa [mlookup, hk] using h)
      exact List.mem_cons_of_mem _ this

/-- In a well-formed index, a record looks up under its own identity key. -/
theorem mapWF_lookup_rowKey {m : MasterMap} (hwf : mapWF m) {k : String} {v : MergedRow}
    (h : mlookup k m = some v) : rowKey v = k :=
  hwf.2 (k, v) (mlookup_mem h)

/-- Lemma: `Map.set` with a matching identity key preserves well-formedness. -/
theorem mapWF_mapSet {m : MasterMap} (hwf : mapWF m) {k : String} {v : MergedRow}
    (hk : rowKey v = k) : mapWF (mapSet k v m) := by
  constructor
  · unfold mapSet
    by_cases h : (mlookup k m).isSome
    · rw [if_pos h]
      have heq : (m.map (fun kv => if kv.1 = k then (k, v) else kv)).map Prod.fst =
          m.map Prod.fst := by
        rw [List.map_map]
        refine List.map_congr_left ?_
        intro kv _
        by_cases hkv : kv.1 = k <;> simp [hkv]
      rw [heq]
      exact hwf.1
    · rw [if_neg h, List.map_append]
      have hnm : k ∉ m.map Prod.fst := by
        rw [← mlookup_eq_none_iff]
        cases hm : mlookup k m
        · rfl
        · rw [hm] at h; exact absurd rfl h
      rw [List.nodup_append]
      refine ⟨hwf.1, List.nodup_singleton k, ?_⟩
      intro a ha hmem
      obtain rfl : a = k := by simpa using hmem
      exact hnm ha
  · intro kv hkv
    unfold mapSet at hkv
    by_cases h : (mlookup k m).isSome
    · rw [if_pos h] at hkv
      obtain ⟨kv', hkv', heq⟩ := List.mem_map.mp hkv
      by_cases hk' : kv'.1 = k
      · rw [if_pos hk'] at heq
        rw [← heq]
        exact hk
      · rw [if_neg hk'] at heq
        rw [← heq]
        exact hwf.2 kv' hkv'
    · rw [if_neg h] at hkv
      rcases List.mem_append.mp hkv with hm | hs
      · exact hwf.2 kv hm
      · obtain rfl : kv = (k, v) := by simpa using hs
        exact hk

/-- Indexing rows by identity key yields a well-formed index. -/
theorem mapWF_buildFold :
    ∀ (rows : List MergedRow) (m : MasterMap), mapWF m →
      mapWF (rows.foldl (fun m row => mapSet (rowKey row) row m) m) := by
  intro rows
  induction rows with
  | nil => intro m h; exact h
  | cons r rs ih =>
    intro m h
    exact ih _ (mapWF_mapSet h rfl)

/-- Lemma: `buildMasterMap` is well-formed. -/
theorem mapWF_buildMasterMap (rows : List MergedRow) : mapWF (buildMasterMap rows) :=
  mapWF_buildFold rows [] ⟨List.nodup_nil, by intro kv h; cases h⟩

/-- Unfolding `upsertStep` without the intermediate key binding. -/
theorem upsertStep_eq (t : FileType) (st : MasterMap × MasterMap) (r : MergedRow) :
    upsertStep t st r =
      if r.orderId = "" then st
      else
        match mlookup (rowKey r) st.1 with
        | some existing => (mapSet (rowKey r) (mergeRowData existing r t) st.1, st.2)
        | none =>
          match mlookup (rowKey r) st.2 with
          | some existingNew => (st.1, mapSet (rowKey r) (mergeRowData existingNew r t) st.2)
          | none => (st.1, mapSet (rowKey r) r st.2) := rfl

/-- Lemma: `upsertStep` preserves well-formedness of both map components. -/
theorem mapWF_upsertStep {t : FileType} {st : MasterMap × MasterMap} (r : MergedRow)
    (h1 : mapWF st.1) (h2 : mapWF st.2) :
    mapWF (upsertStep t st r).1 ∧ mapWF (upsertStep t st r).2 := by
  rw [upsertStep_eq]
  by_cases h0 : r.orderId = ""
  · rw [if_pos h0]; exact ⟨h1, h2⟩
  · rw [if_neg h0]
    cases hm : mlookup (rowKey r) st.1 with
    | some existing =>
      refine ⟨mapWF_mapSet h1 ?_, h2⟩
      rw [rowKey_mergeRowData]
      exact mapWF_lookup_rowKey h1 hm
    | none =>
      cases hn : mlookup (rowKey r) st.2 with
      | some existingNew =>
        refine ⟨h1, mapWF_mapSet h2 ?_⟩
        rw [rowKey_mergeRowData]
        exact mapWF_lookup_rowKey h2 hn
      | none => exact ⟨h1, mapWF_mapSet h2 rfl⟩

/-- The `upsertStep` fold preserves well-formedness of both components. -/
theorem mapWF_upsertFold {t : FileType} :
    ∀ (rows : List MergedRow) (st : MasterMap × MasterMap), mapWF st.1 → mapWF st.2 →
      mapWF ((rows.foldl (upsertStep t) st).1) ∧ mapWF ((rows.foldl (upsertStep t) st).2) := by
  intro rows
  induction rows with
  | nil => intro st h1 h2; exact ⟨h1, h2⟩
  | cons r rs ih =>
    intro st h1 h2
    have h := @mapWF_upsertStep t st r h1 h2
    exact ih _ h.1 h.2

/-- The accumulator-union fold preserves well-formedness. -/
theorem mapWF_unionFold :
    ∀ (nm : MasterMap) (em : MasterMap), mapWF em →
      (∀ kv ∈ nm, rowKey kv.2 = kv.1) → mapWF (nm.foldl unionStep em) := by
  intro nm
  induction nm with
  | nil => intro em h _; exact h
  | cons kv t ih =>
    intro em h hn
    show mapWF (t.foldl unionStep (unionStep em kv))
    refine ih _ ?_ (fun kv' h' => hn kv' (List.mem_cons_of_mem kv h'))
    unfold unionStep
    by_cases hm : (mlookup kv.1 em).isSome
    · rw [if_pos hm]; exact h
    · rw [if_neg hm]
      exact mapWF_mapSet h (hn kv (List.mem_cons_self kv t))

/-- The whole pure ledger transformation is well-formed. -/
theorem mapWF_mergeIntoMasterFileMap (existingRows newRows : List MergedRow) (t : FileType) :
    mapWF (mergeIntoMasterFileMap existingRows newRows t) := by
  unfold mergeIntoMasterFileMap
  have h := @mapWF_upsertFold t newRows (buildMasterMap existingRows, [])
    (mapWF_buildMasterMap existingRows) ⟨List.nodup_nil, by intro kv h; cases h⟩
  exact mapWF_unionFold _ _ h.1 (fun kv hkv => h.2.2 kv hkv)

/-- Lookups through the accumulator union: ledger entries win, accumulator
entries fill the rest. -/
theorem unionFold_lookup :
    ∀ (nm : MasterMap) (em : MasterMap) (k : String),
      mlookup k (nm.foldl unionStep em) =
        match mlookup k em with
        | some v => some v
        | none => mlookup k nm := by
  intro nm
  induction nm with
  | nil =>
    intro em k
    cases h : mlookup k em <;> simp [h, mlookup]
  | cons kv t ih =>
    intro em k
    show mlookup k (t.foldl unionStep (unionStep em kv)) = _
    rw [ih]
    unfold unionStep
    by_cases hkv : (mlookup kv.1 em).isSome
    · rw [if_pos hkv]
      cases h : mlookup k em with
      | some v => rfl
      | none =>
        have hne : kv.1 ≠ k := by
          intro hh
          rw [hh, h] at hkv
          exact absurd hkv (by simp)
        show mlookup k t = mlookup k (kv :: t)
        show mlookup k t = if kv.1 = k then some kv.2 else mlookup k t
        rw [if_neg hne]
    · rw [if_neg hkv]
      by_cases hk : kv.1 = k
      · subst hk
        rw [mlookup_mapSet_self]
        have h : mlookup kv.1 em = none := by
          cases hm : mlookup kv.1 em
          · rfl
          · rw [hm] at hkv; exact absurd rfl hkv
        rw [h]
        show some kv.2 = mlookup kv.1 (kv :: t)
        show some kv.2 = if kv.1 = kv.1 then some kv.2 else mlookup kv.1 t
        rw [if_pos rfl]
      · rw [mlookup_mapSet_ne (fun hh => hk hh.symm)]
        cases h : mlookup k em with
        | some v => rfl
        | none =>
          show mlookup k t = mlookup k (kv :: t)
          show mlookup k t = if kv.1 = k then some kv.2 else mlookup k t
          rw [if_neg hk]

/-- Unfolding `upsertStep` on an explicit pair of maps. -/
theorem upsertStep_pair (t : FileType) (em nm : MasterMap) (r : MergedRow) :
    upsertStep t (em, nm) r =
      if r.orderId = "" then (em, nm)
      else
        match mlookup (rowKey r) em with
        | some existing => (mapSet (rowKey r) (mergeRowData existing r t) em, nm)
        | none =>
          match mlookup (rowKey r) nm with
          | some existingNew => (em, mapSet (rowKey r) (mergeRowData existingNew r t) nm)
          | none => (em, mapSet (rowKey r) r nm) := rfl

/-- Unfolding the same-key filter over a cons. -/
theorem sameKeyRows_cons (k : String) (r : MergedRow) (rs : List MergedRow) :
    sameKeyRows k (r :: rs) =
      if r.orderId ≠ "" ∧ rowKey r = k then r :: sameKeyRows k rs else sameKeyRows k rs := by
  unfold sameKeyRows
  rw [List.filter_cons]
  by_cases h1 : r.orderId = "" <;> by_cases h2 : rowKey r = k <;> simp [h1, h2]

/-- Accumulator-side characterization of the `upsertStep` fold: at a key
the ledger index does not contain, the accumulator ends up holding the
merge-fold of the batch rows carrying that key. -/
theorem foldl_upsertStep_nm_lookup {t : FileType} :
    ∀ (rows : List MergedRow) (em nm : MasterMap) (k : String),
      mlookup k em = none →
      mlookup k ((rows.foldl (upsertStep t) (em, nm)).2) =
        match mlookup k nm with
        | some v => some (mergeFold t v (sameKeyRows k rows))
        | none => firstFold t (sameKeyRows k rows) := by
  intro rows
  induction rows with
  | nil =>
    intro em nm k _
    cases h : mlookup k nm <;> simp [h, sameKeyRows, mergeFold, firstFold]
  | cons r rs ih =>
    intro em nm k h
    show mlookup k ((rs.foldl (upsertStep t) (upsertStep t (em, nm) r)).2) = _
    rw [upsertStep_pair, sameKeyRows_cons]
    by_cases h0 : r.orderId = ""
    · rw [if_pos h0, if_neg (by simp [h0])]
      exact ih em nm k h
    · rw [if_neg h0]
      by_cases hk : rowKey r = k
      · rw [if_pos (show r.orderId ≠ "" ∧ rowKey r = k from ⟨h0, hk⟩), hk, h]
        cases hn : mlookup k nm with
        | some exn =>
          have hih := ih em (mapSet k (mergeRowData exn r t) nm) k h
          rw [mlookup_mapSet_self] at hih
          exact hih
        | none =>
          have hih := ih em (mapSet k r nm) k h
          rw [mlookup_mapSet_self] at hih
          exact hih
      · rw [if_neg (fun hand => hk hand.2)]
        cases hm : mlookup (rowKey r) em with
        | some ex =>
          exact ih _ nm k (by rw [mlookup_mapSet_ne (fun hh => hk hh.symm)]; exact h)
        | none =>
          cases hn : mlookup (rowKey r) nm with
          | some exn =>
            have hih := ih em (mapSet (rowKey r) (mergeRowData exn r t) nm) k h
            rw [mlookup_mapSet_ne (fun hh => hk hh.symm)] at hih
            exact hih
          | none =>
            have hih := ih em (mapSet (rowKey r) r nm) k h
            rw [mlookup_mapSet_ne (fun hh => hk hh.symm)] at hih
            exact hih

/-- Ledger-side characterization of the `upsertStep` fold: a record
already indexed under a key collects, in file order, every batch row
carrying that key. -/
theorem foldl_upsertStep_em_some {t : FileType} :
    ∀ (rows : List MergedRow) (em nm : MasterMap) (k : String) (v0 : MergedRow),
      mlookup k em = some v0 →
      mlookup k ((rows.foldl (upsertStep t) (em, nm)).1) =
        some (mergeFold t v0 (sameKeyRows k rows)) := by
  intro rows
  induction rows with
  | nil =>
    intro em nm k v0 h
    simpa [sameKeyRows, mergeFold] using h
  | cons r rs ih =>
    intro em nm k v0 h
    show mlookup k ((rs.foldl (upsertStep t) (upsertStep t (em, nm) r)).1) = _
    rw [upsertStep_pair, sameKeyRows_cons]
    by_cases h0 : r.orderId = ""
    · rw [if_pos h0, if_neg (by simp [h0])]
      exact ih em nm k v0 h
    · rw [if_neg h0]
      by_cases hk : rowKey r = k
      · rw [if_pos (show r.orderId ≠ "" ∧ rowKey r = k from ⟨h0, hk⟩), hk, h]
        exact ih _ nm k (mergeRowData v0 r t) (mlookup_mapSet_self k _ em)
      · rw [if_neg (fun hand => hk hand.2)]
        cases hm : mlookup (rowKey r) em with
        | some ex =>
          exact ih _ nm k v0 (by rw [mlookup_mapSet_ne (fun hh => hk hh.symm)]; exact h)
        | none =>
          cases hn : mlookup (rowKey r) nm with
          | some exn => exact ih em _ k v0 h
          | none => exact ih em _ k v0 h

/-- The `upsertStep` fold never creates new ledger-index keys. -/
theorem foldl_upsertStep_em_none {t : FileType} :
    ∀ (rows : List MergedRow) (em nm : MasterMap) (k : String),
      mlookup k em = none →
      mlookup k ((rows.foldl (upsertStep t) (em, nm)).1) = none := by
  intro rows
  induction rows with
  | nil => intro em nm k h; exact h
  | cons r rs ih =>
    intro em nm k h
    show mlookup k ((rs.foldl (upsertStep t) (upsertStep t (em, nm) r)).1) = none
    rw [upsertStep_pair]
    by_cases h0 : r.orderId = ""
    · rw [if_pos h0]
      exact ih em nm k h
    · rw [if_neg h0]
      cases hm : mlookup (rowKey r) em with
      | some ex =>
        have hk : rowKey r ≠ k := by
          intro hh
          rw [hh, h] at hm
          cases hm
        exact ih _ nm k (by rw [mlookup_mapSet_ne (fun hh => hk hh.symm)]; exact h)
      | none =>
        cases hn : mlookup (rowKey r) nm with
        | some exn => exact ih em _ k h
        | none => exact ih em _ k h

/-- Pointwise lookup characterization of the whole pure ledger
transformation: a key already in the indexed existing rows collects the
same-key batch rows into its record; a fresh key gets the merge-fold of
its batch rows, seeded by the first occurrence. -/
theorem mergeIntoMasterFileMap_lookup (existingRows rows : List MergedRow) (t : FileType)
    (k : String) :
    mlookup k (mergeIntoMasterFileMap existingRows rows t) =
      match mlookup k (buildMasterMap existingRows) with
      | some v0 => some (mergeFold t v0 (sameKeyRows k rows))
      | none => firstFold t (sameKeyRows k rows) := by
  show mlookup k (((rows.foldl (upsertStep t) (buildMasterMap existingRows, [])).2).foldl
      unionStep ((rows.foldl (upsertStep t) (buildMasterMap existingRows, [])).1)) = _
  rw [unionFold_lookup]
  cases h : mlookup k (buildMasterMap existingRows) with
  | some v0 =>
    rw [foldl_upsertStep_em_some rows _ [] k v0 h]
  | none =>
    rw [foldl_upsertStep_em_none rows _ [] k h]
    exact foldl_upsertStep_nm_lookup rows _ [] k h

/-- On an empty ledger the transformation keys exactly the batch's
same-key groups. -/
theorem mergeIntoMasterFileMap_lookup_empty (rows : List MergedRow) (t : FileType)
    (k : String) :
    mlookup k (mergeIntoMasterFileMap [] rows t) = firstFold t (sameKeyRows k rows) := by
  rw [mergeIntoMasterFileMap_lookup]
  rfl

/-- In a well-formed index, lookup agrees with searching the value list
by identity key. -/
theorem mapWF_lookup_find :
    ∀ (m : MasterMap), mapWF m → ∀ k : String,
      mlookup k m = (m.map Prod.snd).find? (fun r => rowKey r = k) := by
  intro m
  induction m with
  | nil => intro _ k; rfl
  | cons kv t ih =>
    intro hwf k
    have hhead : rowKey kv.2 = kv.1 := hwf.2 kv (List.mem_cons_self kv t)
    have htwf : mapWF t :=
      ⟨(List.nodup_cons.mp hwf.1).2, fun kv' h' => hwf.2 kv' (List.mem_cons_of_mem kv h')⟩
    by_cases hk : kv.1 = k
    · show (if kv.1 = k then some kv.2 else mlookup k t) = _
      rw [if_pos hk, List.map_cons, List.find?_cons_of_pos _ (by simp [hhead, hk])]
    · show (if kv.1 = k then some kv.2 else mlookup k t) = _
      rw [if_neg hk, List.map_cons, List.find?_cons_of_neg _ (by simp [hhead, hk])]
      exact ih htwf k

/-- Searching by identity key is stable under permutation when the keys
are pairwise distinct. -/
theorem find?_rowKey_perm {l l' : List MergedRow} (hperm : l.Perm l')
    (hnd : (l.map rowKey).Nodup) (k : String) :
    l.find? (fun r => rowKey r = k) = l'.find? (fun r => rowKey r = k) := by
  cases h1 : l.find? (fun r => rowKey r = k) with
  | none =>
    cases h2 : l'.find? (fun r => rowKey r = k) with
    | none => rfl
    | some v' =>
      have hv' : v' ∈ l := hperm.symm.subset (List.mem_of_find?_eq_some h2)
      exact absurd (List.find?_some h2) (List.find?_eq_none.mp h1 v' hv')
  | some v =>
    have hv : v ∈ l := List.mem_of_find?_eq_some h1
    have hpv := List.find?_some h1
    cases h2 : l'.find? (fun r => rowKey r = k) with
    | none =>
      exact absurd hpv (List.find?_eq_none.mp h2 v (hperm.subset hv))
    | some v' =>
      have hv' : v' ∈ l := hperm.symm.subset (List.mem_of_find?_eq_some h2)
      have hkv : rowKey v = k := by simpa using hpv
      have hkv' : rowKey v' = k := by simpa using List.find?_some h2
      have heq : v = v' := List.inj_on_of_nodup_map hnd hv hv' (by rw [hkv, hkv'])
      rw [heq]

/-- Lookup through a key-distinct indexing fold finds the unique row with
the key. -/
theorem buildFold_lookup :
    ∀ (rows : List MergedRow) (m : MasterMap) (k : String),
      (rows.map rowKey).Nodup → (∀ r ∈ rows, mlookup (rowKey r) m = none) →
      mlookup k (rows.foldl (fun m row => mapSet (rowKey row) row m) m) =
        match mlookup k m with
        | some v => some v
        | none => rows.find? (fun r => rowKey r = k) := by
  intro rows
  induction rows with
  | nil =>
    intro m k _ _
    cases h : mlookup k m <;> simp [h]
  | cons r rs ih =>
    intro m k hnd hdisj
    have hndt : (rs.map rowKey).Nodup := (List.nodup_cons.mp hnd).2
    have hrk : rowKey r ∉ rs.map rowKey := (List.nodup_cons.mp hnd).1
    have hdisj' : ∀ r' ∈ rs, mlookup (rowKey r') (mapSet (rowKey r) r m) = none := by
      intro r' hr'
      have hne : rowKey r' ≠ rowKey r := by
        intro hh
        exact hrk (hh ▸ List.mem_map_of_mem rowKey hr')
      rw [mlookup_mapSet_ne hne]
      exact hdisj r' (List.mem_cons_of_mem r hr')
    show mlookup k (rs.foldl (fun m row => mapSet (rowKey row) row m) (mapSet (rowKey r) r m)) = _
    rw [ih (mapSet (rowKey r) r m) k hndt hdisj']
    by_cases hk : rowKey r = k
    · rw [← hk, mlookup_mapSet_self]
      have hm0 : mlookup (rowKey r) m = none := hdisj r (List.mem_cons_self r rs)
      rw [hm0, List.find?_cons_of_pos _ (by simp)]
    · rw [mlookup_mapSet_ne (fun hh => hk hh.symm)]
      cases hm : mlookup k m with
      | some v => rfl
      | none => rw [List.find?_cons_of_neg _ (by simp [hk])]

/-- Lookup in `buildMasterMap` of key-distinct rows. -/
theorem buildMasterMap_lookup (rows : List MergedRow) (hnd : (rows.map rowKey).Nodup)
    (k : String) :
    mlookup k (buildMasterMap rows) = rows.find? (fun r => rowKey r = k) := by
  have h := buildFold_lookup rows [] k hnd (fun r _ => rfl)
  exact h

/-- The identity keys of a well-formed index's values are its keys. -/
theorem mapWF_values_keys {m : MasterMap} (hwf : mapWF m) :
    (m.map Prod.snd).map rowKey = m.map Prod.fst := by
  rw [List.map_map]
  exact List.map_congr_left (fun kv h => hwf.2 kv h)

/-- A present existing value survives the overflow fill. -/
theorem fillAbsent_isSome_left {x : Option JVal} (hx : x.isSome) (y : Option JVal) :
    fillAbsent x y = x := by
  obtain ⟨v, rfl⟩ := Option.isSome_iff_exists.mp hx
  rfl

/-- Merging into an absent slot stores the incoming value whatever the
guard decides. -/
theorem upd_none_right (P : Option JVal → Bool) (y : Option JVal) :
    upd P y none = y := by
  by_cases h : P y = true
  · exact upd_pos h none
  · rw [upd_neg (by simpa using h)]
    rfl

/-- An undefined incoming value never changes a truthiness-guarded field. -/
theorem upd_ownTruthy_none (kinds : List FileType) (t : FileType) (x : Option JVal) :
    upd (ownTruthy kinds t) none x = x := by
  rw [upd_neg (by simp [ownTruthy, truthyO])]
  exact fillAbsent_none_right x

/-- An undefined incoming value never changes a defined-ness-guarded field. -/
theorem upd_ownSome_none (kinds : List FileType) (t : FileType) (x : Option JVal) :
    upd (ownSome kinds t) none x = x := by
  rw [upd_neg (by simp [ownSome])]
  exact fillAbsent_none_right x

/-- An undefined incoming value never changes an exception field. -/
theorem upd_alwaysSome_none (t : FileType) (x : Option JVal) :
    upd (alwaysSome t) none x = x := by
  rw [upd_neg rfl]
  exact fillAbsent_none_right x

/-- A falsy incoming value never erases a present truthiness-guarded field. -/
theorem upd_ownTruthy_falsy (kinds : List FileType) (t : FileType) {v : JVal}
    (hv : v.truthy = false) {x : Option JVal} (hx : x.isSome) :
    upd (ownTruthy kinds t) (some v) x = x := by
  rw [upd_neg (by simp [ownTruthy, truthyO, hv])]
  exact fillAbsent_isSome_left hx _

/-- Characters compare `lt` exactly on smaller codepoints. -/
theorem charCmp_lt_of {c d : Char} (h : c.toNat < d.toNat) : charCmp c d = .lt := by
  unfold charCmp
  rw [if_pos h]

/-- Characters compare `eq` exactly on equal codepoints. -/
theorem charCmp_eq_of {c d : Char} (h : c.toNat = d.toNat) : charCmp c d = .eq := by
  unfold charCmp
  rw [if_neg (by rw [h]; exact lt_irrefl _), if_pos h]

/-- Characters compare `gt` exactly on larger codepoints. -/
theorem charCmp_gt_of {c d : Char} (h : d.toNat < c.toNat) : charCmp c d = .gt := by
  unfold charCmp
  rw [if_neg (not_lt.mpr (le_of_lt h)), if_neg (ne_of_gt h)]

/-- Trichotomy for the character comparison. -/
theorem charCmp_cases (c d : Char) :
    (charCmp c d = .lt ∧ c.toNat < d.toNat) ∨ (charCmp c d = .eq ∧ c.toNat = d.toNat) ∨
      (charCmp c d = .gt ∧ d.toNat < c.toNat) := by
  rcases lt_trichotomy c.toNat d.toNat with h | h | h
  · exact Or.inl ⟨charCmp_lt_of h, h⟩
  · exact Or.inr (Or.inl ⟨charCmp_eq_of h, h⟩)
  · exact Or.inr (Or.inr ⟨charCmp_gt_of h, h⟩)

/-- The empty sequence never compares `gt`. -/
theorem listCmp_nil_left (cs : List Char) : listCmp [] cs ≠ Ordering.gt := by
  cases cs <;> simp [listCmp]

/-- Reversing the arguments swaps the comparison. -/
theorem listCmp_swap : ∀ (as bs : List Char), listCmp as bs = (listCmp bs as).swap := by
  intro as
  induction as with
  | nil => intro bs; cases bs <;> rfl
  | cons a as ih =>
    intro bs
    cases bs with
    | nil => rfl
    | cons b bs =>
      rcases charCmp_cases a b with ⟨h1, hv⟩ | ⟨h1, hv⟩ | ⟨h1, hv⟩
      · have h2 : charCmp b a = .gt := charCmp_gt_of hv
        simp [listCmp, h1, h2, Ordering.swap]
      · have h2 : charCmp b a = .eq := charCmp_eq_of hv.symm
        simpa [listCmp, h1, h2] using ih bs
      · have h2 : charCmp b a = .lt := charCmp_lt_of hv
        simp [listCmp, h1, h2, Ordering.swap]

/-- The non-`gt` relation of the codepoint comparison is transitive. -/
theorem listCmp_trans : ∀ (as bs cs : List Char),
    listCmp as bs ≠ Ordering.gt → listCmp bs cs ≠ Ordering.gt →
      listCmp as cs ≠ Ordering.gt := by
  intro as
  induction as with
  | nil => intro bs cs _ _; exact listCmp_nil_left cs
  | cons a as ih =>
    intro bs cs hab hbc
    cases bs with
    | nil => exact absurd (show listCmp (a :: as) [] = .gt from rfl) hab
    | cons b bs =>
      cases cs with
      | nil => exact absurd (show listCmp (b :: bs) [] = .gt from rfl) hbc
      | cons c cs =>
        rcases charCmp_cases a b with ⟨h1, hv1⟩ | ⟨h1, hv1⟩ | ⟨h1, hv1⟩
        · rcases charCmp_cases b c with ⟨h2, hv2⟩ | ⟨h2, hv2⟩ | ⟨h2, hv2⟩
          · simp [listCmp, charCmp_lt_of (lt_trans hv1 hv2)]
          · simp [listCmp, charCmp_lt_of (hv2 ▸ hv1)]
          · exact absurd (show listCmp (b :: bs) (c :: cs) = .gt by simp [listCmp, h2]) hbc
        · rcases charCmp_cases b c with ⟨h2, hv2⟩ | ⟨h2, hv2⟩ | ⟨h2, hv2⟩
          · simp [listCmp, charCmp_lt_of (hv1 ▸ hv2)]
          · have hab' : listCmp as bs ≠ Ordering.gt := by simpa [listCmp, h1] using hab
            have hbc' : listCmp bs cs ≠ Ordering.gt := by simpa [listCmp, h2] using hbc
            have hac : charCmp a c = .eq := charCmp_eq_of (hv1.trans hv2)
            simpa [listCmp, hac] using ih bs cs hab' hbc'
          · exact absurd (show listCmp (b :: bs) (c :: cs) = .gt by simp [listCmp, h2]) hbc
        · exact absurd (show listCmp (a :: as) (b :: bs) = .gt by simp [listCmp, h1]) hab

/-- The codepoint comparator is total (as a preorder). -/
theorem lcCodepoint_total (a b : String) :
    lcCodepoint a b ≠ Ordering.gt ∨ lcCodepoint b a ≠ Ordering.gt := by
  by_cases h : listCmp a.data b.data = Ordering.gt
  · right
    unfold lcCodepoint
    rw [listCmp_swap b.data a.data, h]
    simp [Ordering.swap]
  · exact Or.inl h

/-- The codepoint comparator is transitive. -/
theorem lcCodepoint_trans (a b c : String) (hab : lcCodepoint a b ≠ Ordering.gt)
    (hbc : lcCodepoint b c ≠ Ordering.gt) : lcCodepoint a c ≠ Ordering.gt :=
  listCmp_trans a.data b.data c.data hab hbc

/-! ### Claim C10 -/

/-- C10: the dashboard bulk-load conversion sets every loaded order's
`gstRefund` to 0 unconditionally, discarding whatever `gstRefund` value
the master file holds, so the dashboard read path never observes a
non-zero `gstRefund`. -/
theorem C10_gstRefund_always_zero (rows : List MergedRow) (companyId platformId : String) :
    (loadOrdersRows rows companyId platformId).all
      (fun o => decide (o.gstRefund = JVal.num 0)) = true := by
  rw [List.all_eq_true]
  intro o ho
  obtain ⟨row, _, rfl⟩ := List.mem_map.mp ho
  rfl

/-! ### Claim C1 -/

/-- C1 is false on the code: merging a payment-kind row does overwrite the
sales-owned `productName` (and similarly `wholesalePrice`,
`shippingCharge`, `customerState`, `customerCity`, `customerPincode`)
when the payment row carries a present value for it. -/
theorem C1_counterexample :
    (mergeRowData
        { orderId := "A1", subOrderId := "A1", productName := some (.str "Widget"),
          wholesalePrice := some (.num 100) }
        { orderId := "A1", subOrderId := "A1", productName := some (.str "Gadget"),
          wholesalePrice := some (.num 80), netAmount := some (.num 950) }
        FileType.payment).productName = some (.str "Gadget") ∧
    (mergeRowData
        { orderId := "A1", subOrderId := "A1", productName := some (.str "Widget"),
          wholesalePrice := some (.num 100) }
        { orderId := "A1", subOrderId := "A1", productName := some (.str "Gadget"),
          wholesalePrice := some (.num 80), netAmount := some (.num 950) }
        FileType.payment).wholesalePrice = some (.num 80) := by
  exact ⟨rfl, rfl⟩

/-- C1 (amended): merging a payment-kind row leaves the sales-owned
fields `sku`, `skuName`, `quantity`, `customerName`, `sellingPrice` and
`orderDate` unchanged whenever the existing record has values for them;
the cross-updated fields `productName`, `wholesalePrice`,
`shippingCharge`, `customerState`, `customerCity`, `customerPincode`
(plus the exceptions `status`/`gstRefund`) are the only fields of another
kind a payment row can overwrite. -/
theorem C1_payment_frame (e r : MergedRow)
    (h1 : e.sku.isSome) (h2 : e.skuName.isSome) (h3 : e.quantity.isSome)
    (h4 : e.customerName.isSome) (h5 : e.sellingPrice.isSome) (h6 : e.orderDate.isSome) :
    (mergeRowData e r .payment).sku = e.sku ∧
    (mergeRowData e r .payment).skuName = e.skuName ∧
    (mergeRowData e r .payment).quantity = e.quantity ∧
    (mergeRowData e r .payment).customerName = e.customerName ∧
    (mergeRowData e r .payment).sellingPrice = e.sellingPrice ∧
    (mergeRowData e r .payment).orderDate = e.orderDate := by
  refine ⟨?_, ?_, ?_, ?_, ?_, ?_⟩
  · rw [mergeRowData_sku, upd_neg (by simp [ownTruthy])]
    exact fillAbsent_isSome_left h1 _
  · rw [mergeRowData_skuName, upd_neg (by simp [ownTruthy])]
    exact fillAbsent_isSome_left h2 _
  · rw [mergeRowData_quantity, upd_neg (by simp [ownSome])]
    exact fillAbsent_isSome_left h3 _
  · rw [mergeRowData_customerName, upd_neg (by simp [ownTruthy])]
    exact fillAbsent_isSome_left h4 _
  · rw [mergeRowData_sellingPrice, upd_neg (by simp [ownSome])]
    exact fillAbsent_isSome_left h5 _
  · rw [mergeRowData_orderDate, upd_neg (by simp [ownTruthy])]
    exact fillAbsent_isSome_left h6 _

/-- Witness for the amended C1 at a concrete record pair. -/
theorem C1_payment_frame_witness :
    (mergeRowData
        { orderId := "A1", subOrderId := "A1", sku := some (.str "S"),
          skuName := some (.str "N"), quantity := some (.num 3),
          customerName := some (.str "C"), sellingPrice := some (.num 5),
          orderDate := some (.str "2024-01-01") }
        { orderId := "A1", subOrderId := "A1", sku := some (.str "S2"),
          netAmount := some (.num 950) } .payment).sku = some (.str "S") :=
  (C1_payment_frame
    { orderId := "A1", subOrderId := "A1", sku := some (.str "S"),
      skuName := some (.str "N"), quantity := some (.num 3),
      customerName := some (.str "C"), sellingPrice := some (.num 5),
      orderDate := some (.str "2024-01-01") }
    { orderId := "A1", subOrderId := "A1", sku := some (.str "S2"),
      netAmount := some (.num 950) }
    rfl rfl rfl rfl rfl rfl).1

/-! ### Claim C6 -/

/-- C6 is false on the code as qualified: `status` is overwritten by any
defined incoming value, including the empty string (the code checks only
`!== undefined`, not non-emptiness after trim). -/
theorem C6_counterexample :
    (mergeRowData
        { orderId := "A1", subOrderId := "A1", status := some (.str "delivered") }
        { orderId := "A1", subOrderId := "A1", status := some (.str "") }
        FileType.gst).status = some (.str "") := by
  exact rfl

/-- C6 (amended): for every record kind, `status` is overwritten whenever
the incoming `status` is defined — even when empty — and retained when it
is undefined; `gstRefund` is overwritten whenever defined and retained
when undefined. -/
theorem C6_status_gstRefund_cross_kind (e r : MergedRow) (t : FileType) :
    (r.status = none → (mergeRowData e r t).status = e.status) ∧
    (∀ s, r.status = some s → (mergeRowData e r t).status = some s) ∧
    (r.gstRefund = none → (mergeRowData e r t).gstRefund = e.gstRefund) ∧
    (∀ q, r.gstRefund = some q → (mergeRowData e r t).gstRefund = some q) := by
  refine ⟨?_, ?_, ?_, ?_⟩
  · intro h
    rw [mergeRowData_status, h]
    exact upd_alwaysSome_none t e.status
  · intro s h
    rw [mergeRowData_status, h]
    exact upd_pos rfl e.status
  · intro h
    rw [mergeRowData_gstRefund, h]
    exact upd_alwaysSome_none t e.gstRefund
  · intro q h
    rw [mergeRowData_gstRefund, h]
    exact upd_pos rfl e.gstRefund

/-- Witness for the amended C6 at a concrete record pair. -/
theorem C6_status_gstRefund_witness :
    (mergeRowData
        { orderId := "A1", subOrderId := "A1", status := some (.str "delivered") }
        { orderId := "A1", subOrderId := "A1", status := some (.str "return") }
        FileType.refund).status = some (.str "return") :=
  (C6_status_gstRefund_cross_kind
    { orderId := "A1", subOrderId := "A1", status := some (.str "delivered") }
    { orderId := "A1", subOrderId := "A1", status := some (.str "return") }
    FileType.refund).2.1 (JVal.str "return") rfl

/-- C2 (amended): an undefined incoming value never erases any known
field, and for the truthiness-guarded string fields an incoming empty
string never erases a present existing value; but numeric fields count
any defined number as present — including the 0 the normalizer produces
from an empty cell — so an empty numeric source cell does overwrite
(see the counterexample), and `status` is overwritten even by an empty
string. -/
theorem C2_no_erase_amended (e r : MergedRow) (t : FileType) :
    (r.orderDate = none → (mergeRowData e r t).orderDate = e.orderDate) ∧
    (r.productName = none → (mergeRowData e r t).productName = e.productName) ∧
    (r.sku = none → (mergeRowData e r t).sku = e.sku) ∧
    (r.skuName = none → (mergeRowData e r t).skuName = e.skuName) ∧
    (r.quantity = none → (mergeRowData e r t).quantity = e.quantity) ∧
    (r.status = none → (mergeRowData e r t).status = e.status) ∧
    (r.customerName = none → (mergeRowData e r t).customerName = e.customerName) ∧
    (r.customerState = none → (mergeRowData e r t).customerState = e.customerState) ∧
    (r.customerCity = none → (mergeRowData e r t).customerCity = e.customerCity) ∧
    (r.customerPincode = none → (mergeRowData e r t).customerPincode = e.customerPincode) ∧
    (r.wholesalePrice = none → (mergeRowData e r t).wholesalePrice = e.wholesalePrice) ∧
    (r.sellingPrice = none → (mergeRowData e r t).sellingPrice = e.sellingPrice) ∧
    (r.shippingCharge = none → (mergeRowData e r t).shippingCharge = e.shippingCharge) ∧
    (r.paymentMode = none → (mergeRowData e r t).paymentMode = e.paymentMode) ∧
    (r.hsn = none → (mergeRowData e r t).hsn = e.hsn) ∧
    (r.commission = none → (mergeRowData e r t).commission = e.commission) ∧
    (r.tcs = none → (mergeRowData e r t).tcs = e.tcs) ∧
    (r.tds = none → (mergeRowData e r t).tds = e.tds) ∧
    (r.shipperCharge = none → (mergeRowData e r t).shipperCharge = e.shipperCharge) ∧
    (r.netAmount = none → (mergeRowData e r t).netAmount = e.netAmount) ∧
    (r.gstRate = none → (mergeRowData e r t).gstRate = e.gstRate) ∧
    (r.invoiceNumber = none → (mergeRowData e r t).invoiceNumber = e.invoiceNumber) ∧
    (r.invoiceDate = none → (mergeRowData e r t).invoiceDate = e.invoiceDate) ∧
    (r.cgst = none → (mergeRowData e r t).cgst = e.cgst) ∧
    (r.sgst = none → (mergeRowData e r t).sgst = e.sgst) ∧
    (r.igst = none → (mergeRowData e r t).igst = e.igst) ∧
    (r.taxableValue = none → (mergeRowData e r t).taxableValue = e.taxableValue) ∧
    (r.invoiceAmount = none → (mergeRowData e r t).invoiceAmount = e.invoiceAmount) ∧
    (r.refundAmount = none → (mergeRowData e r t).refundAmount = e.refundAmount) ∧
    (r.deductionAmount = none → (mergeRowData e r t).deductionAmount = e.deductionAmount) ∧
    (r.refundReason = none → (mergeRowData e r t).refundReason = e.refundReason) ∧
    (r.refundDate = none → (mergeRowData e r t).refundDate = e.refundDate) ∧
    (r.gstRefund = none → (mergeRowData e r t).gstRefund = e.gstRefund) ∧
    (e.orderDate.isSome → r.orderDate = some (JVal.str "") → (mergeRowData e r t).orderDate = e.orderDate) ∧
    (e.productName.isSome → r.productName = some (JVal.str "") → (mergeRowData e r t).productName = e.productName) ∧
    (e.sku.isSome → r.sku = some (JVal.str "") → (mergeRowData e r t).sku = e.sku) ∧
    (e.skuName.isSome → r.skuName = some (JVal.str "") → (mergeRowData e r t).skuName = e.skuName) ∧
    (e.customerName.isSome → r.customerName = some (JVal.str "") → (mergeRowData e r t).customerName = e.customerName) ∧
    (e.customerState.isSome → r.customerState = some (JVal.str "") → (mergeRowData e r t).customerState = e.customerState) ∧
    (e.customerCity.isSome → r.customerCity = some (JVal.str "") → (mergeRowData e r t).customerCity = e.customerCity) ∧
    (e.customerPincode.isSome → r.customerPincode = some (JVal.str "") → (mergeRowData e r t).customerPincode = e.customerPincode) ∧
    (e.paymentMode.isSome → r.paymentMode = some (JVal.str "") → (mergeRowData e r t).paymentMode = e.paymentMode) ∧
    (e.hsn.isSome → r.hsn = some (JVal.str "") → (mergeRowData e r t).hsn = e.hsn) ∧
    (e.invoiceNumber.isSome → r.invoiceNumber = some (JVal.str "") → (mergeRowData e r t).invoiceNumber = e.invoiceNumber) ∧
    (e.invoiceDate.isSome → r.invoiceDate = some (JVal.str "") → (mergeRowData e r t).invoiceDate = e.invoiceDate) ∧
    (e.refundReason.isSome → r.refundReason = some (JVal.str "") → (mergeRowData e r t).refundReason = e.refundReason) ∧
    (e.refundDate.isSome → r.refundDate = some (JVal.str "") → (mergeRowData e r t).refundDate = e.refundDate) := by
  exact ⟨
    (fun h => by rw [mergeRowData_orderDate, h]; exact upd_ownTruthy_none _ _ _),
    (fun h => by rw [mergeRowData_productName, h]; exact upd_ownTruthy_none _ _ _),
    (fun h => by rw [mergeRowData_sku, h]; exact upd_ownTruthy_none _ _ _),
    (fun h => by rw [mergeRowData_skuName, h]; exact upd_ownTruthy_none _ _ _),
    (fun h => by rw [mergeRowData_quantity, h]; exact upd_ownSome_none _ _ _),
    (fun h => by rw [mergeRowData_status, h]; exact upd_alwaysSome_none _ _),
    (fun h => by rw [mergeRowData_customerName, h]; exact upd_ownTruthy_none _ _ _),
    (fun h => by rw [mergeRowData_customerState, h]; exact upd_ownTruthy_none _ _ _),
    (fun h => by rw [mergeRowData_customerCity, h]; exact upd_ownTruthy_none _ _ _),
    (fun h => by rw [mergeRowData_customerPincode, h]; exact upd_ownTruthy_none _ _ _),
    (fun h => by rw [mergeRowData_wholesalePrice, h]; exact upd_ownSome_none _ _ _),
    (fun h => by rw [mergeRowData_sellingPrice, h]; exact upd_ownSome_none _ _ _),
    (fun h => by rw [mergeRowData_shippingCharge, h]; exact upd_ownSome_none _ _ _),
    (fun h => by rw [mergeRowData_paymentMode, h]; exact upd_ownTruthy_none _ _ _),
    (fun h => by rw [mergeRowData_hsn, h]; exact upd_ownTruthy_none _ _ _),
    (fun h => by rw [mergeRowData_commission, h]; exact upd_ownSome_none _ _ _),
    (fun h => by rw [mergeRowData_tcs, h]; exact upd_ownSome_none _ _ _),
    (fun h => by rw [mergeRowData_tds, h]; exact upd_ownSome_none _ _ _),
    (fun h => by rw [mergeRowData_shipperCharge, h]; exact upd_ownSome_none _ _ _),
    (fun h => by rw [mergeRowData_netAmount, h]; exact upd_ownSome_none _ _ _),
    (fun h => by rw [mergeRowData_gstRate, h]; exact upd_ownSome_none _ _ _),
    (fun h => by rw [mergeRowData_invoiceNumber, h]; exact upd_ownTruthy_none _ _ _),
    (fun h => by rw [mergeRowData_invoiceDate, h]; exact upd_ownTruthy_none _ _ _),
    (fun h => by rw [mergeRowData_cgst, h]; exact upd_ownSome_none _ _ _),
    (fun h => by rw [mergeRowData_sgst, h]; exact upd_ownSome_none _ _ _),
    (fun h => by rw [mergeRowData_igst, h]; exact upd_ownSome_none _ _ _),
    (fun h => by rw [mergeRowData_taxableValue, h]; exact upd_ownSome_none _ _ _),
    (fun h => by rw [mergeRowData_invoiceAmount, h]; exact upd_ownSome_none _ _ _),
    (fun h => by rw [mergeRowData_refundAmount, h]; exact upd_ownSome_none _ _ _),
    (fun h => by rw [mergeRowData_deductionAmount, h]; exact upd_ownSome_none _ _ _),
    (fun h => by rw [mergeRowData_refundReason, h]; exact upd_ownTruthy_none _ _ _),
    (fun h => by rw [mergeRowData_refundDate, h]; exact upd_ownTruthy_none _ _ _),
    (fun h => by rw [mergeRowData_gstRefund, h]; exact upd_alwaysSome_none _ _),
    (fun hx h => by rw [mergeRowData_orderDate, h]; exact @upd_ownTruthy_falsy _ _ (JVal.str "") rfl _ hx),
    (fun hx h => by rw [mergeRowData_productName, h]; exact @upd_ownTruthy_falsy _ _ (JVal.str "") rfl _ hx),
    (fun hx h => by rw [mergeRowData_sku, h]; exact @upd_ownTruthy_falsy _ _ (JVal.str "") rfl _ hx),
    (fun hx h => by rw [mergeRowData_skuName, h]; exact @upd_ownTruthy_falsy _ _ (JVal.str "") rfl _ hx),
    (fun hx h => by rw [mergeRowData_customerName, h]; exact @upd_ownTruthy_falsy _ _ (JVal.str "") rfl _ hx),
    (fun hx h => by rw [mergeRowData_customerState, h]; exact @upd_ownTruthy_falsy _ _ (JVal.str "") rfl _ hx),
    (fun hx h => by rw [mergeRowData_customerCity, h]; exact @upd_ownTruthy_falsy _ _ (JVal.str "") rfl _ hx),
    (fun hx h => by rw [mergeRowData_customerPincode, h]; exact @upd_ownTruthy_falsy _ _ (JVal.str "") rfl _ hx),
    (fun hx h => by rw [mergeRowData_paymentMode, h]; exact @upd_ownTruthy_falsy _ _ (JVal.str "") rfl _ hx),
    (fun hx h => by rw [mergeRowData_hsn, h]; exact @upd_ownTruthy_falsy _ _ (JVal.str "") rfl _ hx),
    (fun hx h => by rw [mergeRowData_invoiceNumber, h]; exact @upd_ownTruthy_falsy _ _ (JVal.str "") rfl _ hx),
    (fun hx h => by rw [mergeRowData_invoiceDate, h]; exact @upd_ownTruthy_falsy _ _ (JVal.str "") rfl _ hx),
    (fun hx h => by rw [mergeRowData_refundReason, h]; exact @upd_ownTruthy_falsy _ _ (JVal.str "") rfl _ hx),
    (fun hx h => by rw [mergeRowData_refundDate, h]; exact @upd_ownTruthy_falsy _ _ (JVal.str "") rfl _ hx)⟩


/-- Witness for the amended C2 at a concrete record pair. -/
theorem C2_no_erase_witness :
    (mergeRowData
        { orderId := "A1", subOrderId := "A1", productName := some (.str "Widget") }
        { orderId := "A1", subOrderId := "A1", productName := some (.str "") }
        FileType.sales).productName = some (.str "Widget") :=
  ((C2_no_erase_amended
    { orderId := "A1", subOrderId := "A1", productName := some (.str "Widget") }
    { orderId := "A1", subOrderId := "A1", productName := some (.str "") }
    FileType.sales).2.2.2.2.2.2.2.2.2.2.2.2.2.2.2.2.2.2.2.2.2.2.2.2.2.2.2.2.2.2.2.2.2.2.1
    rfl rfl : _)

/-- C2 is false on the code for numeric fields: a payment row whose
`commission` cell is absent is normalized to `commission = 0` by
`parseNumber`, and the merge engine treats that 0 as present, erasing the
existing value 300 with 0. -/
theorem C2_counterexample :
    (buildMergedRow [("Order ID", "A1"), ("Net Amt", "950.00")]
        { orderId := "Order ID", netAmount := "Net Amt", commission := "Comm" }
        FileType.payment (fun _ => none)).commission = some (.num 0) ∧
    (mergeRowData { orderId := "A1", subOrderId := "A1", commission := some (.num 300) }
        (buildMergedRow [("Order ID", "A1"), ("Net Amt", "950.00")]
          { orderId := "Order ID", netAmount := "Net Amt", commission := "Comm" }
          FileType.payment (fun _ => none))
        FileType.payment).commission = some (.num 0) := by
  constructor
  · rfl
  · rfl

/-! ### Claim C5 -/

/-- Lemma: `toLowerCase` distributes over string concatenation. -/
theorem jsToLower_append (a b : String) :
    jsToLower (a ++ b) = jsToLower a ++ jsToLower b := by
  unfold jsToLower
  apply congrArg String.mk
  rw [String.data_append, List.map_append]

/-- C5 is false on the code: the stored key lower-cases and trims the
whole concatenation, not each component, so an `orderId` with trailing
whitespace keeps an interior space before the underscore where the
specification's formula would have removed it. -/
theorem C5_counterexample :
    rowKey { orderId := "A ", subOrderId := "B" } ≠
      specIdentityKey { orderId := "A ", subOrderId := "B" } := by
  decide

/-- C5 (amended): the identity key is
`trim(lowercase(orderId ++ "_" ++ (subOrderId or orderId)))`; in
particular it is case-insensitive — two rows whose `orderId` and
effective `subOrderId` agree up to letter case get the same key and hence
the same canonical record — but whitespace interior to the concatenation
is preserved, unlike the per-component `lowercase(trim(...))` formula. -/
theorem C5_key_case_insensitive (r r' : MergedRow)
    (h1 : jsToLower r.orderId = jsToLower r'.orderId)
    (h2 : jsToLower (if r.subOrderId = "" then r.orderId else r.subOrderId) =
          jsToLower (if r'.subOrderId = "" then r'.orderId else r'.subOrderId)) :
    rowKey r = rowKey r' := by
  unfold rowKey
  rw [jsToLower_append, jsToLower_append, jsToLower_append, jsToLower_append, h1, h2]

/-- Witness for the amended C5: case-variant identifiers share one key. -/
theorem C5_key_case_insensitive_witness :
    rowKey { orderId := "ORD1", subOrderId := "SUB1" } =
      rowKey { orderId := "ord1", subOrderId := "sub1" } :=
  C5_key_case_insensitive
    { orderId := "ORD1", subOrderId := "SUB1" }
    { orderId := "ord1", subOrderId := "sub1" }
    (by decide) (by decide)

/-- C9 (amended): for normalizer-shaped rows (a sales row carries no
payment/tax/refund-owned typed fields and a payment row carries no
sales-only/tax/refund-owned typed fields), merging sales-then-payment and
payment-then-sales agree on every known field except `status`,
`gstRefund`, the identity-field casing, the raw overflow columns, and
the fields a payment row may cross-update (`productName`,
`wholesalePrice`, `shippingCharge`, `customerState`, `customerCity`,
`customerPincode`) together with `orderDate`, on which order matters
(see the counterexample). -/
theorem C9_cross_kind_commute (s p : MergedRow)
    (hs_paymentMode : s.paymentMode = none)
    (hs_hsn : s.hsn = none)
    (hs_commission : s.commission = none)
    (hs_tcs : s.tcs = none)
    (hs_tds : s.tds = none)
    (hs_shipperCharge : s.shipperCharge = none)
    (hs_netAmount : s.netAmount = none)
    (hs_gstRate : s.gstRate = none)
    (hs_invoiceNumber : s.invoiceNumber = none)
    (hs_invoiceDate : s.invoiceDate = none)
    (hs_cgst : s.cgst = none)
    (hs_sgst : s.sgst = none)
    (hs_igst : s.igst = none)
    (hs_taxableValue : s.taxableValue = none)
    (hs_invoiceAmount : s.invoiceAmount = none)
    (hs_refundAmount : s.refundAmount = none)
    (hs_deductionAmount : s.deductionAmount = none)
    (hs_refundReason : s.refundReason = none)
    (hs_refundDate : s.refundDate = none)
    (hp_sku : p.sku = none)
    (hp_skuName : p.skuName = none)
    (hp_quantity : p.quantity = none)
    (hp_customerName : p.customerName = none)
    (hp_sellingPrice : p.sellingPrice = none)
    (hp_gstRate : p.gstRate = none)
    (hp_invoiceNumber : p.invoiceNumber = none)
    (hp_invoiceDate : p.invoiceDate = none)
    (hp_cgst : p.cgst = none)
    (hp_sgst : p.sgst = none)
    (hp_igst : p.igst = none)
    (hp_taxableValue : p.taxableValue = none)
    (hp_invoiceAmount : p.invoiceAmount = none)
    (hp_refundAmount : p.refundAmount = none)
    (hp_deductionAmount : p.deductionAmount = none)
    (hp_refundReason : p.refundReason = none)
    (hp_refundDate : p.refundDate = none) :
    (mergeRowData s p .payment).sku = (mergeRowData p s .sales).sku ∧
    (mergeRowData s p .payment).skuName = (mergeRowData p s .sales).skuName ∧
    (mergeRowData s p .payment).quantity = (mergeRowData p s .sales).quantity ∧
    (mergeRowData s p .payment).customerName = (mergeRowData p s .sales).customerName ∧
    (mergeRowData s p .payment).sellingPrice = (mergeRowData p s .sales).sellingPrice ∧
    (mergeRowData s p .payment).paymentMode = (mergeRowData p s .sales).paymentMode ∧
    (mergeRowData s p .payment).hsn = (mergeRowData p s .sales).hsn ∧
    (mergeRowData s p .payment).commission = (mergeRowData p s .sales).commission ∧
    (mergeRowData s p .payment).tcs = (mergeRowData p s .sales).tcs ∧
    (mergeRowData s p .payment).tds = (mergeRowData p s .sales).tds ∧
    (mergeRowData s p .payment).shipperCharge = (mergeRowData p s .sales).shipperCharge ∧
    (mergeRowData s p .payment).netAmount = (mergeRowData p s .sales).netAmount ∧
    (mergeRowData s p .payment).gstRate = (mergeRowData p s .sales).gstRate ∧
    (mergeRowData s p .payment).invoiceNumber = (mergeRowData p s .sales).invoiceNumber ∧
    (mergeRowData s p .payment).invoiceDate = (mergeRowData p s .sales).invoiceDate ∧
    (mergeRowData s p .payment).cgst = (mergeRowData p s .sales).cgst ∧
    (mergeRowData s p .payment).sgst = (mergeRowData p s .sales).sgst ∧
    (mergeRowData s p .payment).igst = (mergeRowData p s .sales).igst ∧
    (mergeRowData s p .payment).taxableValue = (mergeRowData p s .sales).taxableValue ∧
    (mergeRowData s p .payment).invoiceAmount = (mergeRowData p s .sales).invoiceAmount ∧
    (mergeRowData s p .payment).refundAmount = (mergeRowData p s .sales).refundAmount ∧
    (mergeRowData s p .payment).deductionAmount = (mergeRowData p s .sales).deductionAmount ∧
    (mergeRowData s p .payment).refundReason = (mergeRowData p s .sales).refundReason ∧
    (mergeRowData s p .payment).refundDate = (mergeRowData p s .sales).refundDate := by
  refine ⟨?_, ?_, ?_, ?_, ?_, ?_, ?_, ?_, ?_, ?_, ?_, ?_, ?_, ?_, ?_, ?_, ?_, ?_, ?_, ?_, ?_, ?_, ?_, ?_⟩
  · rw [mergeRowData_sku s p .payment, mergeRowData_sku p s .sales, hp_sku]
    simp only [upd_ownTruthy_none, upd_ownSome_none, upd_alwaysSome_none, upd_none_right]
  · rw [mergeRowData_skuName s p .payment, mergeRowData_skuName p s .sales, hp_skuName]
    simp only [upd_ownTruthy_none, upd_ownSome_none, upd_alwaysSome_none, upd_none_right]
  · rw [mergeRowData_quantity s p .payment, mergeRowData_quantity p s .sales, hp_quantity]
    simp only [upd_ownTruthy_none, upd_ownSome_none, upd_alwaysSome_none, upd_none_right]
  · rw [mergeRowData_customerName s p .payment, mergeRowData_customerName p s .sales, hp_customerName]
    simp only [upd_ownTruthy_none, upd_ownSome_none, upd_alwaysSome_none, upd_none_right]
  · rw [mergeRowData_sellingPrice s p .payment, mergeRowData_sellingPrice p s .sales, hp_sellingPrice]
    simp only [upd_ownTruthy_none, upd_ownSome_none, upd_alwaysSome_none, upd_none_right]
  · rw [mergeRowData_paymentMode s p .payment, mergeRowData_paymentMode p s .sales, hs_paymentMode]
    simp only [upd_ownTruthy_none, upd_ownSome_none, upd_alwaysSome_none, upd_none_right]
  · rw [mergeRowData_hsn s p .payment, mergeRowData_hsn p s .sales, hs_hsn]
    simp only [upd_ownTruthy_none, upd_ownSome_none, upd_alwaysSome_none, upd_none_right]
  · rw [mergeRowData_commission s p .payment, mergeRowData_commission p s .sales, hs_commission]
    simp only [upd_ownTruthy_none, upd_ownSome_none, upd_alwaysSome_none, upd_none_right]
  · rw [mergeRowData_tcs s p .payment, mergeRowData_tcs p s .sales, hs_tcs]
    simp only [upd_ownTruthy_none, upd_ownSome_none, upd_alwaysSome_none, upd_none_right]
  · rw [mergeRowData_tds s p .payment, mergeRowData_tds p s .sales, hs_tds]
    simp only [upd_ownTruthy_none, upd_ownSome_none, upd_alwaysSome_none, upd_none_right]
  · rw [mergeRowData_shipperCharge s p .payment, mergeRowData_shipperCharge p s .sales, hs_shipperCharge]
    simp only [upd_ownTruthy_none, upd_ownSome_none, upd_alwaysSome_none, upd_none_right]
  · rw [mergeRowData_netAmount s p .payment, mergeRowData_netAmount p s .sales, hs_netAmount]
    simp only [upd_ownTruthy_none, upd_ownSome_none, upd_alwaysSome_none, upd_none_right]
  · rw [mergeRowData_gstRate s p .payment, mergeRowData_gstRate p s .sales, hp_gstRate, hs_gstRate]
    simp only [upd_ownTruthy_none, upd_ownSome_none, upd_alwaysSome_none, upd_none_right]
  · rw [mergeRowData_invoiceNumber s p .payment, mergeRowData_invoiceNumber p s .sales, hp_invoiceNumber, hs_invoiceNumber]
    simp only [upd_ownTruthy_none, upd_ownSome_none, upd_alwaysSome_none, upd_none_right]
  · rw [mergeRowData_invoiceDate s p .payment, mergeRowData_invoiceDate p s .sales, hp_invoiceDate, hs_invoiceDate]
    simp only [upd_ownTruthy_none, upd_ownSome_none, upd_alwaysSome_none, upd_none_right]
  · rw [mergeRowData_cgst s p .payment, mergeRowData_cgst p s .sales, hp_cgst, hs_cgst]
    simp only [upd_ownTruthy_none, upd_ownSome_none, upd_alwaysSome_none, upd_none_right]
  · rw [mergeRowData_sgst s p .payment, mergeRowData_sgst p s .sales, hp_sgst, hs_sgst]
    simp only [upd_ownTruthy_none, upd_ownSome_none, upd_alwaysSome_none, upd_none_right]
  · rw [mergeRowData_igst s p .payment, mergeRowData_igst p s .sales, hp_igst, hs_igst]
    simp only [upd_ownTruthy_none, upd_ownSome_none, upd_alwaysSome_none, upd_none_right]
  · rw [mergeRowData_taxableValue s p .payment, mergeRowData_taxableValue p s .sales, hp_taxableValue, hs_taxableValue]
    simp only [upd_ownTruthy_none, upd_ownSome_none, upd_alwaysSome_none, upd_none_right]
  · rw [mergeRowData_invoiceAmount s p .payment, mergeRowData_invoiceAmount p s .sales, hp_invoiceAmount, hs_invoiceAmount]
    simp only [upd_ownTruthy_none, upd_ownSome_none, upd_alwaysSome_none, upd_none_right]
  · rw [mergeRowData_refundAmount s p .payment, mergeRowData_refundAmount p s .sales, hp_refundAmount, hs_refundAmount]
    simp only [upd_ownTruthy_none, upd_ownSome_none, upd_alwaysSome_none, upd_none_right]
  · rw [mergeRowData_deductionAmount s p .payment, mergeRowData_deductionAmount p s .sales, hp_deductionAmount, hs_deductionAmount]
    simp only [upd_ownTruthy_none, upd_ownSome_none, upd_alwaysSome_none, upd_none_right]
  · rw [mergeRowData_refundReason s p .payment, mergeRowData_refundReason p s .sales, hp_refundReason, hs_refundReason]
    simp only [upd_ownTruthy_none, upd_ownSome_none, upd_alwaysSome_none, upd_none_right]
  · rw [mergeRowData_refundDate s p .payment, mergeRowData_refundDate p s .sales, hp_refundDate, hs_refundDate]
    simp only [upd_ownTruthy_none, upd_ownSome_none, upd_alwaysSome_none, upd_none_right]


/-- C9 is false on the code as stated: `productName` is neither `status`
nor `gstRefund`, yet merging sales-then-payment and payment-then-sales
disagree on it whenever both rows carry product names, because the
payment block also overwrites `productName`. -/
theorem C9_counterexample :
    (mergeRowData
        { orderId := "A1", subOrderId := "A1", productName := some (.str "Widget"),
          quantity := some (.num 3) }
        { orderId := "A1", subOrderId := "A1", productName := some (.str "Gadget"),
          netAmount := some (.num 950) }
        FileType.payment).productName ≠
      (mergeRowData
        { orderId := "A1", subOrderId := "A1", productName := some (.str "Gadget"),
          netAmount := some (.num 950) }
        { orderId := "A1", subOrderId := "A1", productName := some (.str "Widget"),
          quantity := some (.num 3) }
        FileType.sales).productName := by
  decide

/-- Witness for the amended C9 at a concrete normalizer-shaped row pair. -/
theorem C9_cross_kind_commute_witness :
    (mergeRowData
        { orderId := "A1", subOrderId := "A1", sku := some (.str "S"),
          productName := some (.str "Widget") }
        { orderId := "A1", subOrderId := "A1", netAmount := some (.num 950) }
        .payment).sku =
      (mergeRowData
        { orderId := "A1", subOrderId := "A1", netAmount := some (.num 950) }
        { orderId := "A1", subOrderId := "A1", sku := some (.str "S"),
          productName := some (.str "Widget") }
        .sales).sku :=
  (C9_cross_kind_commute
    { orderId := "A1", subOrderId := "A1", sku := some (.str "S"),
      productName := some (.str "Widget") }
    { orderId := "A1", subOrderId := "A1", netAmount := some (.num 950) }
    rfl rfl rfl rfl rfl rfl rfl rfl rfl rfl rfl rfl rfl rfl rfl rfl rfl rfl rfl
    rfl rfl rfl rfl rfl rfl rfl rfl rfl rfl rfl rfl rfl rfl rfl rfl rfl).1

/-! ### Claim C4 -/

/-- C4 is false on the code: a permission-denied error
(`storage/unauthorized`) and a generic failure ("Quota exceeded.") are
both swallowed into an empty ledger instead of propagating — the catch
block treats `storage/unauthorized`/`storage/unknown` as "not found" and
returns `[]` for every non-CORS error. -/
theorem C4_counterexample :
    readMasterFile (Except.error
        { code := some "storage/unauthorized",
          message := "User does not have permission to access this object.", name := none,
          serverStatusCode := none }) = Except.ok ([] : List MergedRow) ∧
    readMasterFile (Except.error
        { code := none, message := "Quota exceeded.", name := none,
          serverStatusCode := none }) = Except.ok ([] : List MergedRow) := by
  constructor
  · rfl
  · have h1 : isNotFoundError
        { code := none, message := "Quota exceeded.", name := none,
          serverStatusCode := none } = false := by decide
    have h2 : isCorsError
        { code := none, message := "Quota exceeded.", name := none,
          serverStatusCode := none } = false := by decide
    simp [readMasterFile, h1, h2]

/-- C4 (amended): `readMasterFile` propagates an error exactly when the
caught error matches the CORS signature and not the (broad) not-found
classification; every other failure — including permission-denied,
unknown-code and unrecognized errors — silently yields an empty ledger,
and successful reads pass through. -/
theorem C4_error_swallowing (e : StorageError) (rows : List MergedRow) :
    ((∃ msg, readMasterFile (Except.error e) = Except.error msg) ↔
      isNotFoundError e = false ∧ isCorsError e = true) ∧
    readMasterFile (Except.ok rows) = Except.ok rows := by
  refine ⟨?_, rfl⟩
  unfold readMasterFile
  by_cases h1 : isNotFoundError e = true
  · simp [h1]
  · have h1' : isNotFoundError e = false := by simpa using h1
    by_cases h2 : isCorsError e = true
    · simp [h1', h2, corsErrorMessage]
    · have h2' : isCorsError e = false := by simpa using h2
      simp [h1', h2']

/-- Witness for the amended C4: a CORS-signature error does propagate. -/
theorem C4_error_swallowing_witness :
    ∃ msg, readMasterFile (Except.error
      { code := none, message := "Failed to fetch", name := none,
        serverStatusCode := none }) = Except.error msg :=
  (C4_error_swallowing
    { code := none, message := "Failed to fetch", name := none, serverStatusCode := none }
    []).1.mpr ⟨by decide, by decide⟩

/-! ### Claim C3 -/

/-- C3 is false on the code: within one file, the second row with a
duplicate key is counted and discarded, not folded — the produced record
keeps the first row's `productName` "A", while the Merge-Engine fold of
the two rows (what the claim says the record should equal) would carry
the second row's "B". -/
theorem C3_counterexample :
    (processFileRows
        [[("Order ID", "A1"), ("Item", "A")], [("Order ID", "A1"), ("Item", "B")]]
        { orderId := "Order ID", productName := "Item" } FileType.sales
        (fun _ => none)).duplicateCount = 1 ∧
    (processFileRows
        [[("Order ID", "A1"), ("Item", "A")], [("Order ID", "A1"), ("Item", "B")]]
        { orderId := "Order ID", productName := "Item" } FileType.sales
        (fun _ => none)).mergedRows.map (fun r => r.productName) = [some (.str "A")] ∧
    (mergeRowData
        (buildMergedRow [("Order ID", "A1"), ("Item", "A")]
          { orderId := "Order ID", productName := "Item" } FileType.sales (fun _ => none))
        (buildMergedRow [("Order ID", "A1"), ("Item", "B")]
          { orderId := "Order ID", productName := "Item" } FileType.sales (fun _ => none))
        FileType.sales).productName = some (.str "B") ∧
    (some (JVal.str "A") : Option JVal) ≠ some (JVal.str "B") := by
  refine ⟨rfl, rfl, rfl, by decide⟩

/-- C3 (amended): a file whose two rows share one identity key yields the
first row's normalized record alone — the later duplicate is counted in
the duplicate tally and discarded before the Merge Engine ever sees it
(the accumulator fold of `mergeIntoMasterFile` is unreachable for
intra-file duplicates). -/
theorem C3_duplicate_discarded (row1 row2 : List (String × String)) (h : PlatformHeaders)
    (t : FileType) (d : String → Option String)
    (h1 : extractedOrderId row1 h ≠ "") (h1t : jsTrim (extractedOrderId row1 h) ≠ "")
    (h2 : extractedOrderId row2 h ≠ "") (h2t : jsTrim (extractedOrderId row2 h) ≠ "")
    (hkey : extractedKey row1 h = extractedKey row2 h) :
    processFileRows [row1, row2] h t d =
      { mergedRows := [buildMergedRow row1 h t d], successCount := 1, errorCount := 0,
        duplicateCount := 1 } := by
  unfold processFileRows
  have s1 : processRowStep h t d (⟨[], 0, 0, 0⟩, []) row1 =
      (⟨[buildMergedRow row1 h t d], 1, 0, 0⟩, [extractedKey row1 h]) := by
    unfold processRowStep
    rw [if_neg (not_or.mpr ⟨h1, h1t⟩), if_neg (by simp)]
    simp
  have s2 : processRowStep h t d
      (⟨[buildMergedRow row1 h t d], 1, 0, 0⟩, [extractedKey row1 h]) row2 =
      (⟨[buildMergedRow row1 h t d], 1, 0, 1⟩, [extractedKey row1 h]) := by
    unfold processRowStep
    rw [if_neg (not_or.mpr ⟨h2, h2t⟩), if_pos (by rw [← hkey]; simp)]
  show (processRowStep h t d (processRowStep h t d (⟨[], 0, 0, 0⟩, []) row1) row2).1 = _
  rw [s1, s2]

/-- Witness for the amended C3 at a concrete duplicate pair. -/
theorem C3_duplicate_discarded_witness :
    processFileRows [[("Order ID", "B7"), ("Item", "X")], [("Order ID", "B7"), ("Item", "Y")]]
        { orderId := "Order ID", productName := "Item" } FileType.sales (fun _ => none) =
      { mergedRows := [buildMergedRow [("Order ID", "B7"), ("Item", "X")]
          { orderId := "Order ID", productName := "Item" } FileType.sales (fun _ => none)],
        successCount := 1, errorCount := 0, duplicateCount := 1 } :=
  C3_duplicate_discarded [("Order ID", "B7"), ("Item", "X")]
    [("Order ID", "B7"), ("Item", "Y")] { orderId := "Order ID", productName := "Item" }
    FileType.sales (fun _ => none) (by decide) (by decide) (by decide) (by decide) (by decide)

/-! ### Claim C7 -/

/-- C7 is false on the code as stated: the final sort compares the
original-casing `orderId_subOrderId` text with the host's
`localeCompare`.  Under a conforming codepoint comparator, records with
orderIds "B1" and "a1" serialize in an order that is descending in the
case-folded identity key. -/
theorem C7_counterexample :
    ¬ sortedByIdentityKey (mergeIntoMasterFile lcCodepoint []
        [{ orderId := "B1", subOrderId := "B1" }, { orderId := "a1", subOrderId := "a1" }]
        FileType.sales) := by
  unfold sortedByIdentityKey
  decide

/-- C7 (amended): every rewrite persists exactly one record per identity
key (the serialized records' identity keys are pairwise distinct), and
the serialized sequence is sorted by the `localeCompare` comparator
applied to the original-casing `orderId_subOrderId` key — not by the
case-folded identity key — whenever the host comparator is total and
transitive. -/
theorem C7_unique_keys_and_sort (lc : String → String → Ordering)
    (existingRows newRows : List MergedRow) (t : FileType)
    (htot : ∀ a b, lc a b ≠ Ordering.gt ∨ lc b a ≠ Ordering.gt)
    (htrans : ∀ a b c, lc a b ≠ Ordering.gt → lc b c ≠ Ordering.gt →
      lc a c ≠ Ordering.gt) :
    ((mergeIntoMasterFile lc existingRows newRows t).map rowKey).Nodup ∧
    List.Sorted (fun a b => lc (sortKeyOf a) (sortKeyOf b) ≠ Ordering.gt)
      (mergeIntoMasterFile lc existingRows newRows t) := by
  constructor
  · have hwf := mapWF_mergeIntoMasterFileMap existingRows newRows t
    have hperm : (mergeIntoMasterFile lc existingRows newRows t).Perm
        ((mergeIntoMasterFileMap existingRows newRows t).map Prod.snd) :=
      List.perm_insertionSort _ _
    have hnd : (((mergeIntoMasterFileMap existingRows newRows t).map Prod.snd).map
        rowKey).Nodup := by
      rw [mapWF_values_keys hwf]
      exact hwf.1
    exact ((hperm.map rowKey).nodup_iff).mpr hnd
  · letI : IsTotal MergedRow (fun a b => lc (sortKeyOf a) (sortKeyOf b) ≠ Ordering.gt) :=
      ⟨fun a b => htot (sortKeyOf a) (sortKeyOf b)⟩
    letI : IsTrans MergedRow (fun a b => lc (sortKeyOf a) (sortKeyOf b) ≠ Ordering.gt) :=
      ⟨fun a b c hab hbc => htrans _ _ _ hab hbc⟩
    exact List.sorted_insertionSort _ _

/-- Witness for the amended C7 under the codepoint comparator. -/
theorem C7_unique_keys_and_sort_witness :
    ((mergeIntoMasterFile lcCodepoint []
        [{ orderId := "B1", subOrderId := "B1" }, { orderId := "a1", subOrderId := "a1" }]
        FileType.sales).map rowKey).Nodup ∧
    List.Sorted (fun a b => lcCodepoint (sortKeyOf a) (sortKeyOf b) ≠ Ordering.gt)
      (mergeIntoMasterFile lcCodepoint []
        [{ orderId := "B1", subOrderId := "B1" }, { orderId := "a1", subOrderId := "a1" }]
        FileType.sales) :=
  C7_unique_keys_and_sort lcCodepoint []
    [{ orderId := "B1", subOrderId := "B1" }, { orderId := "a1", subOrderId := "a1" }]
    FileType.sales
    lcCodepoint_total lcCodepoint_trans

/-! ### Claim C8 -/

/-- C8: ingestion is idempotent.  Merging a batch of normalized rows
(every row's `subOrderId` is non-empty, which the normalizer guarantees
via the `|| orderId` fallback) into an empty ledger and then merging the
identical batch into the serialization of the result leaves every
identity key's canonical record unchanged, whatever comparator the
host's `localeCompare` is. -/
theorem C8_reingest_idempotent (rows : List MergedRow) (t : FileType)
    (lc : String → String → Ordering) (hsub : ∀ r ∈ rows, r.subOrderId ≠ "")
    (k : String) :
    mlookup k (mergeIntoMasterFileMap (mergeIntoMasterFile lc [] rows t) rows t) =
      mlookup k (mergeIntoMasterFileMap [] rows t) := by
  have hwf := mapWF_mergeIntoMasterFileMap [] rows t
  have hnd1 : (((mergeIntoMasterFileMap [] rows t).map Prod.snd).map rowKey).Nodup := by
    rw [mapWF_values_keys hwf]
    exact hwf.1
  have hperm : (mergeIntoMasterFile lc [] rows t).Perm
      ((mergeIntoMasterFileMap [] rows t).map Prod.snd) := List.perm_insertionSort _ _
  have hndp : ((mergeIntoMasterFile lc [] rows t).map rowKey).Nodup :=
    ((hperm.map rowKey).nodup_iff).mpr hnd1
  have hbuild : mlookup k (buildMasterMap (mergeIntoMasterFile lc [] rows t)) =
      mlookup k (mergeIntoMasterFileMap [] rows t) := by
    rw [buildMasterMap_lookup _ hndp k, find?_rowKey_perm hperm hndp k,
      ← mapWF_lookup_find _ hwf k]
  rw [mergeIntoMasterFileMap_lookup, hbuild, mergeIntoMasterFileMap_lookup_empty]
  cases hsk : sameKeyRows k rows with
  | nil => rfl
  | cons r0 rs =>
    have hr0 : r0 ∈ rows := by
      have hmem : r0 ∈ sameKeyRows k rows := by
        rw [hsk]
        exact List.mem_cons_self r0 rs
      exact List.mem_of_mem_filter hmem
    show some (mergeFold t (mergeFold t r0 rs) (r0 :: rs)) = some (mergeFold t r0 rs)
    rw [mergeFold_replay t r0 rs (hsub r0 hr0)]

/-- Witness for C8 at a concrete two-row batch. -/
theorem C8_reingest_idempotent_witness :
    mlookup "a1_a1"
        (mergeIntoMasterFileMap
          (mergeIntoMasterFile lcCodepoint []
            [{ orderId := "A1", subOrderId := "A1",
               productName := some (.str "Widget") },
             { orderId := "B2", subOrderId := "B2", netAmount := some (.num 950) }]
            FileType.sales)
          [{ orderId := "A1", subOrderId := "A1", productName := some (.str "Widget") },
           { orderId := "B2", subOrderId := "B2", netAmount := some (.num 950) }]
          FileType.sales) =
      mlookup "a1_a1"
        (mergeIntoMasterFileMap []
          [{ orderId := "A1", subOrderId := "A1", productName := some (.str "Widget") },
           { orderId := "B2", subOrderId := "B2", netAmount := some (.num 950) }]
          FileType.sales) :=
  C8_reingest_idempotent
    [{ orderId := "A1", subOrderId := "A1", productName := some (.str "Widget") },
     { orderId := "B2", subOrderId := "B2", netAmount := some (.num 950) }]
    FileType.sales lcCodepoint (by decide) "a1_a1"
